import Mathlib

/-!
Verification development for the `lib/model.py` training harness of the
text2painting repository.  The Python code is shallowly embedded: strings
manipulated character-wise are `List Char`, floats are modelled as rationals,
tensors as lists of rationals, and the four networks / GAN criteria /
gradient-penalty helpers (defined in `lib/arch.py` and `lib/utils.py`,
outside the embedded file) are abstract function fields of the model state.
-/

/-! ### Character-level string toolkit

Python builds the checkpoint filename with `"{}_{:04}_{:08}_..."` and parses
it back with `os.path.basename(model_file).split('_')[1]` and `int`.  We
model Python strings as `List Char`, `str.split(c)` as `splitC`, the joining
done by the format string as `joinC`, decimal rendering as `natToDecimal`
(zero-padded by `padZeros`), and `int` on a nonnegative decimal literal as
`decToNat?`. -/

def digitChar (d : Nat) : Char := Char.ofNat (48 + d)

def digitVal (c : Char) : Nat := c.toNat - 48

def natToDecimal (n : Nat) : List Char :=
  if n = 0 then [Char.ofNat 48] else ((Nat.digits 10 n).reverse.map digitChar)

def padZeros (k : Nat) (s : List Char) : List Char :=
  List.replicate (k - s.length) (Char.ofNat 48) ++ s

/-- `"{:04}".format(n)` : decimal rendering of `n`, left-padded with zeros
to at least four characters. -/
def pad4 (n : Nat) : List Char := padZeros 4 (natToDecimal n)

/-- `"{:08}".format(n)` : decimal rendering of `n`, left-padded with zeros
to at least eight characters. -/
def pad8 (n : Nat) : List Char := padZeros 8 (natToDecimal n)

/-- Python `int` applied to a nonnegative decimal literal. -/
def decToNat? (s : List Char) : Option Nat :=
  if s ≠ [] ∧ s.all Char.isDigit then
    some (s.foldl (fun a c => 10 * a + digitVal c) 0)
  else none

/-- Python `str.split(c)` on a character-list string. -/
def splitC (c : Char) : List Char → List (List Char)
  | [] => [[]]
  | a :: rest =>
    match splitC c rest with
    | [] => [[a]]
    | h :: t => if a = c then [] :: h :: t else (a :: h) :: t

/-- Joining a list of fields with the separator `c`, as the format string
`"{}_{}_..."` does. -/
def joinC (c : Char) : List (List Char) → List Char
  | [] => []
  | [x] => x
  | x :: y :: rest => x ++ c :: joinC c (y :: rest)

theorem splitC_ne_nil (c : Char) (l : List Char) : splitC c l ≠ [] := by
  induction l with
  | nil => simp [splitC]
  | cons a rest ih =>
    simp only [splitC]
    cases h : splitC c rest with
    | nil => simp
    | cons h' t => by_cases hac : a = c <;> simp [hac]

theorem splitC_not_mem (c : Char) (l : List Char) (h : c ∉ l) :
    splitC c l = [l] := by
  induction l with
  | nil => rfl
  | cons a rest ih =>
    simp only [List.mem_cons, not_or] at h
    simp only [splitC, ih h.2]
    rw [if_neg (Ne.symm h.1)]

theorem splitC_append (c : Char) (a b : List Char) (h : c ∉ a) :
    splitC c (a ++ c :: b) = a :: splitC c b := by
  induction a with
  | nil =>
    simp only [List.nil_append, splitC]
    cases hb : splitC c b with
    | nil => exact absurd hb (splitC_ne_nil c b)
    | cons h' t => simp
  | cons x rest ih =>
    simp only [List.mem_cons, not_or] at h
    simp only [List.cons_append, splitC, List.append_eq, ih h.2]
    rw [if_neg (Ne.symm h.1)]

theorem digitChar_isDigit : ∀ d, d < 10 → (digitChar d).isDigit = true := by
  decide

theorem digitVal_digitChar : ∀ d, d < 10 → digitVal (digitChar d) = d := by
  decide

theorem natToDecimal_ne_nil (n : Nat) : natToDecimal n ≠ [] := by
  unfold natToDecimal
  split
  · simp
  · simp [Nat.digits_ne_nil_iff_ne_zero, *]

theorem mem_natToDecimal_isDigit (n : Nat) (c : Char) (h : c ∈ natToDecimal n) :
    c.isDigit = true := by
  unfold natToDecimal at h
  split at h
  · simp only [List.mem_singleton] at h
    subst h
    decide
  · simp only [List.mem_map, List.mem_reverse] at h
    obtain ⟨d, hd, rfl⟩ := h
    exact digitChar_isDigit d (Nat.digits_lt_base (by norm_num) hd)

theorem foldl_base10_reverse (l : List Nat) (a : Nat) :
    l.reverse.foldl (fun x d => 10 * x + d) a =
      a * 10 ^ l.length + Nat.ofDigits 10 l := by
  induction l generalizing a with
  | nil => simp
  | cons d t ih =>
    simp only [List.reverse_cons, List.foldl_append, List.foldl_cons,
      List.foldl_nil, ih, Nat.ofDigits_cons, List.length_cons]
    ring

theorem foldl_digitChar_map (l : List Nat) (h : ∀ d ∈ l, d < 10) (a : Nat) :
    (l.map digitChar).foldl (fun x c => 10 * x + digitVal c) a =
      l.foldl (fun x d => 10 * x + d) a := by
  induction l generalizing a with
  | nil => rfl
  | cons d t ih =>
    simp only [List.map_cons, List.foldl_cons]
    rw [digitVal_digitChar d (h d (List.mem_cons_self d t))]
    exact ih (fun x hx => h x (List.mem_cons_of_mem d hx)) _

theorem foldl_natToDecimal (n : Nat) :
    (natToDecimal n).foldl (fun a c => 10 * a + digitVal c) 0 = n := by
  unfold natToDecimal
  split
  · subst n
    decide
  · rw [List.map_reverse] at *
    rw [show ((Nat.digits 10 n).map digitChar).reverse =
          ((Nat.digits 10 n).reverse).map digitChar by
        simp [List.map_reverse]]
    rw [foldl_digitChar_map]
    · rw [foldl_base10_reverse]
      simp [Nat.ofDigits_digits]
    · intro d hd
      exact Nat.digits_lt_base (by norm_num) (List.mem_reverse.mp hd)

theorem foldl_zeros (m : Nat) :
    (List.replicate m (Char.ofNat 48)).foldl (fun a c => 10 * a + digitVal c) 0 = 0 := by
  induction m with
  | zero => rfl
  | succ k ih => simpa [List.replicate_succ, digitVal] using ih

theorem decToNat?_padZeros_natToDecimal (k n : Nat) :
    decToNat? (padZeros k (natToDecimal n)) = some n := by
  have hall : (padZeros k (natToDecimal n)).all Char.isDigit = true := by
    simp only [padZeros, List.all_append, Bool.and_eq_true, List.all_eq_true]
    constructor
    · intro c hc
      rw [List.eq_of_mem_replicate hc]
      decide
    · exact fun c hc => mem_natToDecimal_isDigit n c hc
  have hne : padZeros k (natToDecimal n) ≠ [] := by
    simp [padZeros, natToDecimal_ne_nil n]
  rw [decToNat?, if_pos ⟨hne, hall⟩]
  rw [padZeros, List.foldl_append, foldl_zeros, foldl_natToDecimal]

theorem not_mem_joinC (sep c : Char) (parts : List (List Char)) (hcs : c ≠ sep)
    (h : ∀ p ∈ parts, c ∉ p) : c ∉ joinC sep parts := by
  induction parts with
  | nil => simp [joinC]
  | cons x rest ih =>
    cases rest with
    | nil => simpa [joinC] using h x (by simp)
    | cons y t =>
      simp only [joinC, List.mem_append, List.mem_cons, not_or]
      refine ⟨h x (by simp), hcs, ?_⟩
      exact ih (fun p hp => h p (List.mem_cons_of_mem x hp))

theorem splitC_joinC (sep : Char) (parts : List (List Char)) (hne : parts ≠ [])
    (h : ∀ p ∈ parts, sep ∉ p) : splitC sep (joinC sep parts) = parts := by
  induction parts with
  | nil => exact absurd rfl hne
  | cons x rest ih =>
    cases rest with
    | nil => simpa [joinC] using splitC_not_mem sep x (h x (by simp))
    | cons y t =>
      simp only [joinC]
      rw [splitC_append sep x _ (h x (by simp))]
      rw [ih (by simp) (fun p hp => h p (List.mem_cons_of_mem x hp))]

/-- One step of `os.path.basename`: scanning the path left to right, a slash
resets the accumulated basename. -/
def basenameStep (acc : List Char) (c : Char) : List Char :=
  if c = '/' then [] else acc ++ [c]

/-- `os.path.basename` for a path that does not end in a slash. -/
def basename (p : List Char) : List Char := p.foldl basenameStep []

theorem foldl_basenameStep_no_slash (f : List Char) (hf : '/' ∉ f) :
    ∀ a, f.foldl basenameStep a = a ++ f := by
  induction f with
  | nil => simp
  | cons c rest ih =>
    intro a
    simp only [List.mem_cons, not_or] at hf
    simp only [List.foldl_cons, basenameStep, if_neg (Ne.symm hf.1)]
    rw [ih hf.2]
    simp

theorem basename_append (d f : List Char) (hf : '/' ∉ f) :
    basename (d ++ '/' :: f) = f := by
  unfold basename
  rw [List.foldl_append, List.foldl_cons]
  simp only [basenameStep, if_pos rfl]
  simpa using foldl_basenameStep_no_slash f hf []

theorem mem_padZeros (k : Nat) (s : List Char) (c : Char) (h : c ∈ padZeros k s) :
    c = Char.ofNat 48 ∨ c ∈ s := by
  simp only [padZeros, List.mem_append] at h
  rcases h with h | h
  · exact Or.inl (List.eq_of_mem_replicate h)
  · exact Or.inr h

theorem mem_padZeros_natToDecimal_isDigit (k n : Nat) (c : Char)
    (h : c ∈ padZeros k (natToDecimal n)) : c.isDigit = true := by
  rcases mem_padZeros k _ c h with rfl | h
  · decide
  · exact mem_natToDecimal_isDigit n c h

theorem isDigit_ne_separators (c : Char) (h : c.isDigit = true) :
    c ≠ '_' ∧ c ≠ '/' ∧ c ≠ ',' ∧ c ≠ Char.ofNat 10 := by
  refine ⟨?_, ?_, ?_, ?_⟩ <;> rintro rfl <;> revert h <;> decide

/-! ### Checkpoint filename

`save_model_dict` builds
`"{}_{:04}_{:08}_{:.4f}_{:.4f}_{:.4f}_{:.4f}.pth".format(model_name, epoch,
iteration, loss_g, loss_d, loss_g_refiner, loss_d_decider)` and joins it to
the model directory; `load_state_dict` recovers the epoch with
`int(os.path.basename(model_file).split('_')[1]) + 1`.  The four formatted
loss values are abstract character lists (floats and their rendering are out
of scope; the parse never looks at them). -/

def pthExt : List Char := ['.', 'p', 't', 'h']

def model_filename (name : List Char) (epoch iteration : Nat)
    (l1 l2 l3 l4 : List Char) : List Char :=
  joinC '_' [name, pad4 epoch, pad8 iteration, l1, l2, l3, l4 ++ pthExt]

def modelFilePath (dir name : List Char) (epoch iteration : Nat)
    (l1 l2 l3 l4 : List Char) : List Char :=
  dir ++ '/' :: model_filename name epoch iteration l1 l2 l3 l4

/-- `int(os.path.basename(model_file).split('_')[1])`. -/
def parseEpochOfFile (p : List Char) : Option Nat :=
  decToNat? ((splitC '_' (basename p)).getD 1 [])

theorem no_slash_model_filename (name : List Char) (epoch iteration : Nat)
    (l1 l2 l3 l4 : List Char) (hn : '/' ∉ name) (h1 : '/' ∉ l1) (h2 : '/' ∉ l2)
    (h3 : '/' ∉ l3) (h4 : '/' ∉ l4) :
    '/' ∉ model_filename name epoch iteration l1 l2 l3 l4 := by
  refine not_mem_joinC '_' '/' _ (by decide) ?_
  intro p hp
  have hdig : ∀ m k, '/' ∉ padZeros k (natToDecimal m) := by
    intro m k hmem
    exact absurd rfl (mem_padZeros_natToDecimal_isDigit k m _ hmem
      |> isDigit_ne_separators _ |>.2.1)
  simp only [List.mem_cons, List.not_mem_nil, or_false] at hp
  rcases hp with rfl | rfl | rfl | rfl | rfl | rfl | rfl
  · exact hn
  · exact hdig epoch 4
  · exact hdig iteration 8
  · exact h1
  · exact h2
  · exact h3
  · intro hmem
    rcases List.mem_append.mp hmem with hmem | hmem
    · exact h4 hmem
    · revert hmem
      decide

theorem parseEpochOfFile_modelFilePath (dir name : List Char)
    (epoch iteration : Nat) (l1 l2 l3 l4 : List Char)
    (hu : '_' ∉ name) (hn : '/' ∉ name) (h1 : '/' ∉ l1) (h2 : '/' ∉ l2)
    (h3 : '/' ∉ l3) (h4 : '/' ∉ l4) :
    parseEpochOfFile (modelFilePath dir name epoch iteration l1 l2 l3 l4) =
      some epoch := by
  unfold parseEpochOfFile modelFilePath
  rw [basename_append dir _
    (no_slash_model_filename name epoch iteration l1 l2 l3 l4 hn h1 h2 h3 h4)]
  have hpad : '_' ∉ pad4 epoch := by
    intro hmem
    exact absurd rfl (mem_padZeros_natToDecimal_isDigit 4 epoch _ hmem
      |> isDigit_ne_separators _ |>.1)
  unfold model_filename
  rw [show joinC '_' [name, pad4 epoch, pad8 iteration, l1, l2, l3, l4 ++ pthExt] =
        name ++ '_' :: (pad4 epoch ++ '_' ::
          joinC '_' [pad8 iteration, l1, l2, l3, l4 ++ pthExt]) from rfl]
  rw [splitC_append '_' name _ hu, splitC_append '_' (pad4 epoch) _ hpad]
  simpa [pad4] using decToNat?_padZeros_natToDecimal 4 epoch

/-! ### Learning-rate scheduler

Modelled from the spec: `torch.optim.lr_scheduler.ReduceLROnPlateau` is part
of the external deep-learning framework (out of scope of the embedded file);
the spec glossary describes it as "a policy object that adjusts an
optimizer's step size based on observed metric plateaus".  The standard
semantics is embedded here for `mode='min'`, `threshold_mode='rel'`:
a metric improves when it is below `best * (1 - threshold)`; after more than
`patience` consecutive non-improving steps the learning rate is multiplied
by `factor` (not going below `minLr`, and only when the decrease exceeds
`eps`).  `best = none` is the initial `inf`.  `GANModel.__init__` constructs
all four schedulers with `mode='min'`, `factor=0.75`, `threshold=0.01`,
`patience=100` (torch defaults: `cooldown=0`, `min_lr=0`, `eps=1e-8`). -/

structure PlateauScheduler where
  factor : ℚ
  patience : Nat
  threshold : ℚ
  eps : ℚ
  minLr : ℚ
  cooldown : Nat
  best : Option ℚ
  numBadEpochs : Nat
  cooldownCounter : Nat
  lr : ℚ
deriving DecidableEq

def isBetter (metric : ℚ) (best : Option ℚ) (threshold : ℚ) : Bool :=
  match best with
  | none => true
  | some b => decide (metric < b * (1 - threshold))

def plateauStep (s : PlateauScheduler) (metric : ℚ) : PlateauScheduler :=
  let s1 :=
    if isBetter metric s.best s.threshold then
      { s with best := some metric, numBadEpochs := 0 }
    else
      { s with numBadEpochs := s.numBadEpochs + 1 }
  let s2 :=
    if s1.cooldownCounter > 0 then
      { s1 with cooldownCounter := s1.cooldownCounter - 1, numBadEpochs := 0 }
    else s1
  if s2.numBadEpochs > s2.patience then
    let newLr := max (s2.lr * s2.factor) s2.minLr
    { s2 with
      lr := if s2.lr - newLr > s2.eps then newLr else s2.lr,
      cooldownCounter := s2.cooldown,
      numBadEpochs := 0 }
  else s2

/-- A scheduler as `GANModel.__init__` builds it (lines 140-162). -/
def mkScheduler (lr : ℚ) : PlateauScheduler :=
  { factor := 3 / 4
    patience := 100
    threshold := 1 / 100
    eps := 1 / 100000000
    minLr := 0
    cooldown := 0
    best := none
    numBadEpochs := 0
    cooldownCounter := 0
    lr := lr }

/-- `scheduler.step(0)`, the call `update_lr` makes on each scheduler. -/
def stepZero (s : PlateauScheduler) : PlateauScheduler := plateauStep s 0

/-! ### Model state

The train-mode `GANModel`.  Networks (from `lib/arch.py`), `GANLoss`
criteria and the two gradient-penalty helpers (from `lib/utils.py`) are
collaborator code outside the embedded file and are abstract function
fields: a criterion maps `(prediction, target_is_real, prob_flip_labels)`
to `(loss, accuracy)` as `GANLoss.__call__` does, and the penalty helpers
receive the discriminator, its inputs and the `constant`/`lambda_gp`
arguments.  Network parameters, optimizer states and the per-parameter
`requires_grad` flags are bookkeeping fields: `optimizer.step()` advances
(only) its own network's parameter state and its internal state, and
`set_requires_grad` rewrites every flag of one network. -/

inductive Net
  | G
  | D
  | GRefiner
  | DDecider
deriving DecidableEq

inductive TrainEvent
  | setRequiresGrad (n : Net) (b : Bool)
  | zeroGrad (n : Net)
  | discCall (n : Net) (images : List ℚ) (wvs : Option (List ℚ))
  | lossBackward (n : Net)
  | optimStep (n : Net)
deriving DecidableEq

structure GANModelT where
  ganLoss1 : String
  ganLoss2 : String
  lambda_l1 : ℚ
  prob_flip_labels : ℚ
  model_name : List Char
  model_dir : List Char
  G : List ℚ → List ℚ
  G_refiner : List ℚ → List ℚ
  D : List ℚ → List ℚ → List ℚ
  D_decider : List ℚ → List ℚ
  G_criterionGAN : List ℚ → Bool → ℚ → ℚ × ℚ
  D_criterionGAN : List ℚ → Bool → ℚ → ℚ × ℚ
  G_refiner_criterionGAN : List ℚ → Bool → ℚ → ℚ × ℚ
  D_decider_criterionGAN : List ℚ → Bool → ℚ → ℚ × ℚ
  pairedGP : (List ℚ → List ℚ → List ℚ) → (List ℚ × List ℚ) → (List ℚ × List ℚ) → ℚ → ℚ → ℚ
  singleGP : (List ℚ → List ℚ) → List ℚ → List ℚ → ℚ → ℚ → ℚ
  gParams : Nat
  dParams : Nat
  gRefinerParams : Nat
  dDeciderParams : Nat
  gRg : List Bool
  dRg : List Bool
  gRefinerRg : List Bool
  dDeciderRg : List Bool
  gOptim : Nat
  dOptim : Nat
  gRefinerOptim : Nat
  dDeciderOptim : Nat
  gSched : PlateauScheduler
  dSched : PlateauScheduler
  gRefinerSched : PlateauScheduler
  dDeciderSched : PlateauScheduler
  epoch : Nat
  loss_G : Option ℚ
  loss_D : Option ℚ
  loss_G_refiner : Option ℚ
  loss_D_decider : Option ℚ
  loss_gp_fr : Option ℚ
  loss_gp_rf : Option ℚ
  loss_gp_decider_fr : Option ℚ
  accuracy_D_rr : ℚ
  accuracy_D_rf : ℚ
  accuracy_D_fr : ℚ
  accuracy_D_decider_rr : ℚ
  accuracy_D_decider_fr : ℚ

/-- `set_requires_grad` (lines 333-336): sets `requires_grad` of every
parameter of the given network. -/
def set_requires_grad (m : GANModelT) (n : Net) (b : Bool) : GANModelT :=
  match n with
  | Net.G => { m with gRg := m.gRg.map fun _ => b }
  | Net.D => { m with dRg := m.dRg.map fun _ => b }
  | Net.GRefiner => { m with gRefinerRg := m.gRefinerRg.map fun _ => b }
  | Net.DDecider => { m with dDeciderRg := m.dDeciderRg.map fun _ => b }

/-- `optimizer.step()` of one network's Adam optimizer: it advances only the
parameters it was constructed over, plus its own internal state. -/
def optimizerStep (m : GANModelT) (n : Net) : GANModelT :=
  match n with
  | Net.G => { m with gParams := m.gParams + 1, gOptim := m.gOptim + 1 }
  | Net.D => { m with dParams := m.dParams + 1, dOptim := m.dOptim + 1 }
  | Net.GRefiner =>
    { m with gRefinerParams := m.gRefinerParams + 1, gRefinerOptim := m.gRefinerOptim + 1 }
  | Net.DDecider =>
    { m with dDeciderParams := m.dDeciderParams + 1, dDeciderOptim := m.dDeciderOptim + 1 }

/-- `torch.nn.MSELoss()` applied to two equally shaped tensors. -/
def mseLoss (a b : List ℚ) : ℚ :=
  ((List.zipWith (fun x y => (x - y) ^ 2) a b).foldr (· + ·) 0) / a.length

/-- `set_inputs` (lines 338-350): the four (image, word-vector) pairs;
`view(batch_size, -1)` is the identity on our flat tensors. -/
def set_inputs (real_images real_wv fake_wv fake_images refined : List ℚ) :
    ((List ℚ × List ℚ) × (List ℚ × List ℚ) × (List ℚ × List ℚ) × (List ℚ × List ℚ)) :=
  ((real_images, real_wv), (real_images, fake_wv), (fake_images, real_wv), (refined, real_wv))

/-! ### Backward passes (lines 352-451)

Each `backward_*` updates the recorded loss/accuracy fields and yields the
trace of discriminator invocations and `.backward()` calls it performs.
`update=False` skips every `.backward()`.  `fake_images.detach()` and
`refined.detach()` are value-level identities. -/

def backward_D (m : GANModelT) (rr_pair rf_pair fr_pair : List ℚ × List ℚ)
    (update : Bool) (probFlip : ℚ) : GANModelT × List TrainEvent :=
  let real_images := rr_pair.1
  let real_wvs := rr_pair.2
  let fake_wvs := rf_pair.2
  let fake_images := fr_pair.1
  let rrRes := m.D_criterionGAN (m.D real_images real_wvs) true probFlip
  let frRes := m.D_criterionGAN (m.D fake_images real_wvs) false probFlip
  let rfRes := m.D_criterionGAN (m.D real_images fake_wvs) false probFlip
  let m2 :=
    { m with
      accuracy_D_rr := rrRes.2
      accuracy_D_fr := frRes.2
      accuracy_D_rf := rfRes.2
      loss_gp_fr :=
        if m.ganLoss1 = "wgangp" then some (m.pairedGP m.D rr_pair fr_pair 1 10)
        else m.loss_gp_fr
      loss_gp_rf :=
        if m.ganLoss1 = "wgangp" then some (m.pairedGP m.D rr_pair rf_pair 1 10)
        else m.loss_gp_rf
      loss_D := some (rrRes.1 + (rfRes.1 + frRes.1) / 2) }
  (m2,
    [TrainEvent.discCall Net.D real_images (some real_wvs)]
      ++ (if update then [TrainEvent.lossBackward Net.D] else [])
      ++ [TrainEvent.discCall Net.D fake_images (some real_wvs)]
      ++ (if update then [TrainEvent.lossBackward Net.D] else [])
      ++ [TrainEvent.discCall Net.D real_images (some fake_wvs)]
      ++ (if m.ganLoss1 = "wgangp" ∧ update = true then
            [TrainEvent.lossBackward Net.D, TrainEvent.lossBackward Net.D]
          else []))

def backward_D_decider (m : GANModelT) (rr_pair fr_refined_pair : List ℚ × List ℚ)
    (update : Bool) (probFlip : ℚ) : GANModelT × List TrainEvent :=
  let real_images := rr_pair.1
  let refined := fr_refined_pair.1
  let rrRes := m.D_decider_criterionGAN (m.D_decider real_images) true probFlip
  let frRes := m.D_decider_criterionGAN (m.D_decider refined) false probFlip
  let m2 :=
    { m with
      accuracy_D_decider_rr := rrRes.2
      accuracy_D_decider_fr := frRes.2
      loss_gp_decider_fr :=
        if m.ganLoss2 = "wgangp" then
          some (m.singleGP m.D_decider real_images refined 1 10)
        else m.loss_gp_decider_fr
      loss_D_decider := some (rrRes.1 + frRes.1) }
  (m2,
    [TrainEvent.discCall Net.DDecider real_images none]
      ++ (if update then [TrainEvent.lossBackward Net.DDecider] else [])
      ++ [TrainEvent.discCall Net.DDecider refined none]
      ++ (if update then [TrainEvent.lossBackward Net.DDecider] else [])
      ++ (if m.ganLoss2 = "wgangp" ∧ update = true then
            [TrainEvent.lossBackward Net.DDecider]
          else []))

def backward_G (m : GANModelT) (fr_pair : List ℚ × List ℚ) (real_images : List ℚ)
    (update : Bool) (probFlip : ℚ) : GANModelT × List TrainEvent :=
  let fake_images := fr_pair.1
  let real_wvs := fr_pair.2
  let pred_fr := m.D fake_images real_wvs
  let loss_G_dist := mseLoss fake_images real_images * m.lambda_l1
  let gRes := m.G_criterionGAN pred_fr true probFlip
  ({ m with loss_G := some (loss_G_dist + gRes.1) },
    [TrainEvent.discCall Net.D fake_images (some real_wvs)]
      ++ (if update then [TrainEvent.lossBackward Net.G, TrainEvent.lossBackward Net.G]
          else []))

def backward_G_refiner (m : GANModelT) (fr_refined_pair : List ℚ × List ℚ)
    (real_images : List ℚ) (update : Bool) (probFlip : ℚ) :
    GANModelT × List TrainEvent :=
  let refined := fr_refined_pair.1
  let pred_refined_fr := m.D_decider refined
  let loss_G_refiner_dist := mseLoss refined real_images * m.lambda_l1
  let gRes := m.G_refiner_criterionGAN pred_refined_fr true probFlip
  ({ m with loss_G_refiner := some (loss_G_refiner_dist + gRes.1) },
    [TrainEvent.discCall Net.DDecider refined none]
      ++ (if update then
            [TrainEvent.lossBackward Net.GRefiner, TrainEvent.lossBackward Net.GRefiner]
          else []))

/-! ### The per-phase step function `fit` (lines 551-608)

The train branch is split into its four stages exactly as the source blocks
are; `stageGEntry` (resp. `stageGRefinerEntry`) is the model state that the
`backward_G` (resp. `backward_G_refiner`) call receives, after the stage's
`set_requires_grad` calls. -/

def fitStageD (m : GANModelT) (rr_pair rf_pair fr_pair : List ℚ × List ℚ)
    (train_D : Bool) : GANModelT × List TrainEvent :=
  let m1 := set_requires_grad m Net.D train_D
  let br := backward_D m1 rr_pair rf_pair fr_pair train_D m1.prob_flip_labels
  let m2 := if train_D then optimizerStep br.1 Net.D else br.1
  (m2,
    TrainEvent.setRequiresGrad Net.D train_D :: TrainEvent.zeroGrad Net.D ::
      br.2 ++ (if train_D then [TrainEvent.optimStep Net.D] else []))

def stageGEntry (m : GANModelT) (train_G : Bool) : GANModelT :=
  set_requires_grad (set_requires_grad m Net.D false) Net.G train_G

def fitStageG (m : GANModelT) (fr_pair : List ℚ × List ℚ) (real_images : List ℚ)
    (train_G : Bool) : GANModelT × List TrainEvent :=
  let m1 := stageGEntry m train_G
  let br := backward_G m1 fr_pair real_images train_G m1.prob_flip_labels
  let m2 := if train_G then optimizerStep br.1 Net.G else br.1
  (m2,
    TrainEvent.setRequiresGrad Net.D false :: TrainEvent.setRequiresGrad Net.G train_G ::
      TrainEvent.zeroGrad Net.G ::
      br.2 ++ (if train_G then [TrainEvent.optimStep Net.G] else []))

def fitStageDDecider (m : GANModelT) (rr_pair fr_refined_pair : List ℚ × List ℚ)
    (train_D : Bool) : GANModelT × List TrainEvent :=
  let m1 := set_requires_grad m Net.DDecider train_D
  let br := backward_D_decider m1 rr_pair fr_refined_pair train_D m1.prob_flip_labels
  let m2 := if train_D then optimizerStep br.1 Net.DDecider else br.1
  (m2,
    TrainEvent.setRequiresGrad Net.DDecider train_D :: TrainEvent.zeroGrad Net.DDecider ::
      br.2 ++ (if train_D then [TrainEvent.optimStep Net.DDecider] else []))

def stageGRefinerEntry (m : GANModelT) (train_G : Bool) : GANModelT :=
  set_requires_grad (set_requires_grad m Net.DDecider false) Net.GRefiner train_G

def fitStageGRefiner (m : GANModelT) (fr_refined_pair : List ℚ × List ℚ)
    (real_images : List ℚ) (train_G : Bool) : GANModelT × List TrainEvent :=
  let m1 := stageGRefinerEntry m train_G
  let br := backward_G_refiner m1 fr_refined_pair real_images train_G m1.prob_flip_labels
  let m2 := if train_G then optimizerStep br.1 Net.GRefiner else br.1
  (m2,
    TrainEvent.setRequiresGrad Net.DDecider false ::
      TrainEvent.setRequiresGrad Net.GRefiner train_G ::
      TrainEvent.zeroGrad Net.GRefiner ::
      br.2 ++ (if train_G then [TrainEvent.optimStep Net.GRefiner] else []))

def fitTrain (m : GANModelT) (real_images real_wv fake_wv : List ℚ)
    (train_D train_G : Bool) : GANModelT × List TrainEvent :=
  let fake_images := m.G real_wv
  let refined := m.G_refiner fake_images
  let pairs := set_inputs real_images real_wv fake_wv fake_images refined
  let r1 := fitStageD m pairs.1 pairs.2.1 pairs.2.2.1 train_D
  let r2 := fitStageG r1.1 pairs.2.2.1 real_images train_G
  let r3 := fitStageDDecider r2.1 pairs.1 pairs.2.2.2 train_D
  let r4 := fitStageGRefiner r3.1 pairs.2.2.2 real_images train_G
  (r4.1, r1.2 ++ r2.2 ++ r3.2 ++ r4.2)

/-- The non-train branch of `fit` (lines 604-608): the four backward
computations with `update=False` and `prob_flip_labels=0.0`. -/
def fitEval (m : GANModelT) (real_images real_wv fake_wv : List ℚ) :
    GANModelT × List TrainEvent :=
  let fake_images := m.G real_wv
  let refined := m.G_refiner fake_images
  let pairs := set_inputs real_images real_wv fake_wv fake_images refined
  let r1 := backward_D m pairs.1 pairs.2.1 pairs.2.2.1 false 0
  let r2 := backward_G r1.1 pairs.2.2.1 real_images false 0
  let r3 := backward_D_decider r2.1 pairs.1 pairs.2.2.2 false 0
  let r4 := backward_G_refiner r3.1 pairs.2.2.2 real_images false 0
  (r4.1, r1.2 ++ r2.2 ++ r3.2 ++ r4.2)

def fit (m : GANModelT) (data : List ℚ × List ℚ × List ℚ) (phase : String)
    (train_D train_G : Bool) : GANModelT × List TrainEvent :=
  if phase = "train" then fitTrain m data.1 data.2.1 data.2.2 train_D train_G
  else fitEval m data.1 data.2.1 data.2.2

/-- `update_lr` (lines 468-481): every scheduler is stepped with the constant
metric `0`; the second component records the metric passed to each of the
four `step` calls. -/
def update_lr (m : GANModelT) : GANModelT × List ℚ :=
  ({ m with
      gSched := plateauStep m.gSched 0
      dSched := plateauStep m.dSched 0
      gRefinerSched := plateauStep m.gRefinerSched 0
      dDeciderSched := plateauStep m.dDeciderSched 0 },
   [0, 0, 0, 0])

/-- Python truthiness of an optional scalar tensor: `None` and a zero-valued
tensor are falsy. -/
def truthy (o : Option ℚ) : Bool :=
  match o with
  | none => false
  | some v => !decide (v = 0)

/-- `get_losses` (lines 453-462): `x.item() if x else -1.0` per loss. -/
def get_losses (m : GANModelT) : ℚ × ℚ × ℚ × ℚ × ℚ × ℚ × ℚ :=
  (if truthy m.loss_G then m.loss_G.getD 0 else -1,
   if truthy m.loss_D then m.loss_D.getD 0 else -1,
   if truthy m.loss_G_refiner then m.loss_G_refiner.getD 0 else -1,
   if truthy m.loss_D_decider then m.loss_D_decider.getD 0 else -1,
   if truthy m.loss_gp_fr then m.loss_gp_fr.getD 0 else -1,
   if truthy m.loss_gp_rf then m.loss_gp_rf.getD 0 else -1,
   if truthy m.loss_gp_decider_fr then m.loss_gp_decider_fr.getD 0 else -1)

/-- Reporting convention the claim describes: a missing loss, and a computed
loss of exactly zero, are reported as the sentinel `-1.0`. -/
def lossOrSentinel (o : Option ℚ) : ℚ :=
  match o with
  | none => -1
  | some v => if v = 0 then -1 else v

/-! ### Checkpoint serialization (lines 172-185, 235-280)

The `state_dict` a train-mode model saves is a dictionary with twelve keys
(the literal of `__init__` lines 172-185 — it has no `'epoch'` key), whose
values `set_state_dict` fills from the current networks, optimizers and
schedulers.  `save_model_dict` writes it under the formatted filename;
`load_state_dict` reads the epoch back from the filename and the twelve
components from the dictionary. -/

inductive SnapVal
  | net (v : Nat)
  | optim (v : Nat)
  | sched (s : PlateauScheduler)
deriving DecidableEq

/-- `set_state_dict` in train mode: the twelve components, keyed as in the
`state_dict` literal of `__init__`. -/
def set_state_dict (m : GANModelT) : List (String × SnapVal) :=
  [("g", SnapVal.net m.gParams),
   ("g_optim", SnapVal.optim m.gOptim),
   ("g_lr_scheduler", SnapVal.sched m.gSched),
   ("d", SnapVal.net m.dParams),
   ("d_optim", SnapVal.optim m.dOptim),
   ("d_lr_scheduler", SnapVal.sched m.dSched),
   ("g_refiner", SnapVal.net m.gRefinerParams),
   ("g_refiner_optim", SnapVal.optim m.gRefinerOptim),
   ("g_refiner_lr_scheduler", SnapVal.sched m.gRefinerSched),
   ("d_decider", SnapVal.net m.dDeciderParams),
   ("d_decider_optim", SnapVal.optim m.dDeciderOptim),
   ("d_decider_lr_scheduler", SnapVal.sched m.dDeciderSched)]

/-- `save_model_dict` (lines 275-280): the written file path and the saved
dictionary.  The four loss arguments stand for the `{:.4f}`-formatted loss
strings of the filename. -/
def save_model_dict (m : GANModelT) (epoch iteration : Nat)
    (l1 l2 l3 l4 : List Char) : List Char × List (String × SnapVal) :=
  (modelFilePath m.model_dir m.model_name epoch iteration l1 l2 l3 l4,
   set_state_dict m)

def lookupNet (st : List (String × SnapVal)) (k : String) : Option Nat :=
  match st.lookup k with
  | some (SnapVal.net v) => some v
  | _ => none

def lookupOptim (st : List (String × SnapVal)) (k : String) : Option Nat :=
  match st.lookup k with
  | some (SnapVal.optim v) => some v
  | _ => none

def lookupSched (st : List (String × SnapVal)) (k : String) : Option PlateauScheduler :=
  match st.lookup k with
  | some (SnapVal.sched s) => some s
  | _ => none

/-- `load_state_dict` (lines 235-258) for a train-mode model: the epoch is
`int(basename(model_file).split('_')[1]) + 1`, the twelve components come
from the loaded dictionary, and with `reset_lr` the four optimizer learning
rates are reset to `config.LR`. -/
def load_state_dict (m : GANModelT) (model_file : List Char)
    (state : List (String × SnapVal)) (reset_lr : Bool) (configLR : ℚ) :
    Option GANModelT :=
  match parseEpochOfFile model_file, lookupNet state "g", lookupNet state "g_refiner",
      lookupNet state "d", lookupNet state "d_decider" with
  | some e, some vg, some vgr, some vd, some vdd =>
    match lookupOptim state "g_optim", lookupOptim state "d_optim",
        lookupOptim state "g_refiner_optim", lookupOptim state "d_decider_optim" with
    | some og, some od, some ogr, some odd2 =>
      match lookupSched state "g_lr_scheduler", lookupSched state "d_lr_scheduler",
          lookupSched state "g_refiner_lr_scheduler",
          lookupSched state "d_decider_lr_scheduler" with
      | some sg, some sd, some sgr, some sdd =>
        some
          (if reset_lr then
            { m with
              epoch := e + 1
              gParams := vg, gRefinerParams := vgr, dParams := vd, dDeciderParams := vdd
              gOptim := og, dOptim := od, gRefinerOptim := ogr, dDeciderOptim := odd2
              gSched := { sg with lr := configLR }, dSched := { sd with lr := configLR }
              gRefinerSched := { sgr with lr := configLR }
              dDeciderSched := { sdd with lr := configLR } }
          else
            { m with
              epoch := e + 1
              gParams := vg, gRefinerParams := vgr, dParams := vd, dDeciderParams := vdd
              gOptim := og, dOptim := od, gRefinerOptim := ogr, dDeciderOptim := odd2
              gSched := sg, dSched := sd, gRefinerSched := sgr, dDeciderSched := sdd })
      | _, _, _, _ => none
    | _, _, _, _ => none
  | _, _, _, _, _ => none

/-! ### Logging (lines 313-331)

`save_logs` unpacks a twelve-field tuple, picks the train or validation log
file by the phase, and appends one comma-delimited row holding the epoch,
the iteration, the four losses and the five accuracies (the phase is not
written).  A log file is the list of its appended rows; rational values are
rendered with `format4`, our model of `"{:.4f}"`. -/

/-- Rounding half away from zero is avoided: `"{:.4f}"` rounds to nearest;
ties are modelled half-up via the floor of `x + 1/2` computed on numerator
and denominator. -/
def ratRoundHalfUp (q : ℚ) : ℤ :=
  Int.fdiv (2 * q.num + (q.den : ℤ)) (2 * (q.den : ℤ))

def format4 (q : ℚ) : List Char :=
  let n : ℤ := ratRoundHalfUp (q * 10000)
  let a := n.natAbs
  (if n < 0 then ['-'] else []) ++
    natToDecimal (a / 10000) ++ '.' :: padZeros 4 (natToDecimal (a % 10000))

structure LogTuple where
  phase : String
  epoch : Nat
  iteration : Nat
  loss_g : ℚ
  loss_d : ℚ
  loss_g_refiner : ℚ
  loss_d_decider : ℚ
  acc_rr : ℚ
  acc_rf : ℚ
  acc_fr : ℚ
  acc_decider_rr : ℚ
  acc_decider_fr : ℚ

structure LogFiles where
  train_log_file : List (List Char)
  val_log_file : List (List Char)
deriving DecidableEq

/-- The eleven comma-separated fields of `log_row_str`. -/
def logRowFields (t : LogTuple) : List (List Char) :=
  [natToDecimal t.epoch, natToDecimal t.iteration,
   format4 t.loss_g, format4 t.loss_d, format4 t.loss_g_refiner,
   format4 t.loss_d_decider, format4 t.acc_rr, format4 t.acc_rf,
   format4 t.acc_fr, format4 t.acc_decider_rr, format4 t.acc_decider_fr]

def logRow (t : LogTuple) : List Char :=
  joinC ',' (logRowFields t) ++ [Char.ofNat 10]

def save_logs (f : LogFiles) (t : LogTuple) : LogFiles :=
  if t.phase = "train" then
    { f with train_log_file := f.train_log_file ++ [logRow t] }
  else
    { f with val_log_file := f.val_log_file ++ [logRow t] }

/-! ### Helper predicates over event traces -/

def stepsOf (evs : List TrainEvent) : List Net :=
  evs.filterMap fun e =>
    match e with
    | TrainEvent.optimStep n => some n
    | _ => none

def allOff (l : List Bool) : Bool := l.all fun b => !b

def pairedDCallsOnly (evs : List TrainEvent) : Bool :=
  evs.all fun e =>
    match e with
    | TrainEvent.discCall Net.D _ none => false
    | _ => true

def unpairedDeciderCallsOnly (evs : List TrainEvent) : Bool :=
  evs.all fun e =>
    match e with
    | TrainEvent.discCall Net.DDecider _ (some _) => false
    | _ => true

def countDiscCalls (n : Net) (evs : List TrainEvent) : Nat :=
  (evs.filter fun e =>
    match e with
    | TrainEvent.discCall k _ _ => decide (k = n)
    | _ => false).length

def onlyDiscCalls (evs : List TrainEvent) : Bool :=
  evs.all fun e =>
    match e with
    | TrainEvent.discCall _ _ _ => true
    | _ => false

/-! ### Sample concrete states (used by witnesses and counterexamples) -/

def sampleModel : GANModelT :=
  { ganLoss1 := "lsgan"
    ganLoss2 := "lsgan"
    lambda_l1 := 100
    prob_flip_labels := 1 / 20
    model_name := ['m']
    model_dir := ['t', 'm', 'p']
    G := fun _ => [0]
    G_refiner := fun _ => [0]
    D := fun _ _ => [0]
    D_decider := fun _ => [0]
    G_criterionGAN := fun _ _ _ => (0, 0)
    D_criterionGAN := fun _ _ _ => (0, 0)
    G_refiner_criterionGAN := fun _ _ _ => (0, 0)
    D_decider_criterionGAN := fun _ _ _ => (0, 0)
    pairedGP := fun _ _ _ _ _ => 0
    singleGP := fun _ _ _ _ _ => 0
    gParams := 0
    dParams := 0
    gRefinerParams := 0
    dDeciderParams := 0
    gRg := [true]
    dRg := [true]
    gRefinerRg := [true]
    dDeciderRg := [true]
    gOptim := 0
    dOptim := 0
    gRefinerOptim := 0
    dDeciderOptim := 0
    gSched := mkScheduler (1 / 5000)
    dSched := mkScheduler (1 / 5000)
    gRefinerSched := mkScheduler (1 / 5000)
    dDeciderSched := mkScheduler (1 / 5000)
    epoch := 1
    loss_G := none
    loss_D := none
    loss_G_refiner := none
    loss_D_decider := none
    loss_gp_fr := none
    loss_gp_rf := none
    loss_gp_decider_fr := none
    accuracy_D_rr := 0
    accuracy_D_rf := 0
    accuracy_D_fr := 0
    accuracy_D_decider_rr := 0
    accuracy_D_decider_fr := 0 }

def sampleFresh : GANModelT :=
  { sampleModel with
    gParams := 40
    dParams := 41
    gRefinerParams := 42
    dDeciderParams := 43
    gOptim := 50
    dOptim := 51
    gRefinerOptim := 52
    dDeciderOptim := 53
    epoch := 9 }

def sampleData : List ℚ × List ℚ × List ℚ := ([1], [2], [3])

/-! ### C10 -/

theorem truthy_ite_eq_sentinel (o : Option ℚ) :
    (if truthy o then o.getD 0 else -1) = lossOrSentinel o := by
  cases o with
  | none => rfl
  | some v => by_cases h : v = 0 <;> simp [truthy, lossOrSentinel, h]

/-- C10: `get_losses` returns the 7-tuple (loss_g, loss_d, loss_g_refiner,
loss_d_decider, loss_gp_fr, loss_gp_rf, loss_gp_decider_fr); a loss that was
never computed (`None`) and a computed loss whose value is exactly zero are
both reported as the sentinel `-1.0`, any other loss as its scalar value. -/
theorem C10_get_losses_sentinel (m : GANModelT) :
    get_losses m =
      (lossOrSentinel m.loss_G, lossOrSentinel m.loss_D,
       lossOrSentinel m.loss_G_refiner, lossOrSentinel m.loss_D_decider,
       lossOrSentinel m.loss_gp_fr, lossOrSentinel m.loss_gp_rf,
       lossOrSentinel m.loss_gp_decider_fr) ∧
    lossOrSentinel none = -1 ∧
    lossOrSentinel (some 0) = -1 ∧
    ∀ v : ℚ, lossOrSentinel (some v) = if v = 0 then -1 else v := by
  refine ⟨?_, rfl, rfl, fun v => rfl⟩
  simp only [get_losses, truthy_ite_eq_sentinel]

/-! ### C5 -/

/-- C5: `backward_G` records `loss_G` as the MSE distance between the fake
and the real images weighted by `lambda_l1`, plus the adversarial loss of
`D`'s prediction on the (fake image, real word-vector) pair against a real
target. -/
theorem C5_backward_G_loss (m : GANModelT) (fr_pair : List ℚ × List ℚ)
    (real_images : List ℚ) (update : Bool) (probFlip : ℚ) :
    ((backward_G m fr_pair real_images update probFlip).1).loss_G =
      some (mseLoss fr_pair.1 real_images * m.lambda_l1 +
        (m.G_criterionGAN (m.D fr_pair.1 fr_pair.2) true probFlip).1) := rfl

/-! ### C6 -/

/-- C6: the gradient-penalty losses are assigned exactly when the configured
GAN loss is `'wgangp'`: `backward_D` assigns the two paired penalties (with
constant `1.0` and weight `10.0`) iff `gan_loss1 = 'wgangp'`, and
`backward_D_decider` assigns the single penalty iff `gan_loss2 = 'wgangp'`;
otherwise the fields keep their previous values. -/
theorem C6_gradient_penalty_iff_wgangp (m : GANModelT)
    (rr rf fr frr : List ℚ × List ℚ) (u : Bool) (p : ℚ) :
    ((backward_D m rr rf fr u p).1.loss_gp_fr =
      if m.ganLoss1 = "wgangp" then some (m.pairedGP m.D rr fr 1 10)
      else m.loss_gp_fr) ∧
    ((backward_D m rr rf fr u p).1.loss_gp_rf =
      if m.ganLoss1 = "wgangp" then some (m.pairedGP m.D rr rf 1 10)
      else m.loss_gp_rf) ∧
    ((backward_D_decider m rr frr u p).1.loss_gp_decider_fr =
      if m.ganLoss2 = "wgangp" then some (m.singleGP m.D_decider rr.1 frr.1 1 10)
      else m.loss_gp_decider_fr) :=
  ⟨rfl, rfl, rfl⟩

/-! ### C7 -/

/-- C7: every invocation of `D` in `backward_D` and `backward_G` passes both
an image batch and a word-vector batch (and there are 3, resp. 1, such
invocations); every invocation of `D_decider` in `backward_D_decider` and
`backward_G_refiner` passes only an image batch (2, resp. 1, invocations). -/
theorem C7_paired_unpaired_discriminators (m : GANModelT)
    (rr rf fr frr : List ℚ × List ℚ) (ri : List ℚ) (u : Bool) (p : ℚ) :
    pairedDCallsOnly (backward_D m rr rf fr u p).2 = true ∧
    countDiscCalls Net.D (backward_D m rr rf fr u p).2 = 3 ∧
    pairedDCallsOnly (backward_G m fr ri u p).2 = true ∧
    countDiscCalls Net.D (backward_G m fr ri u p).2 = 1 ∧
    unpairedDeciderCallsOnly (backward_D_decider m rr frr u p).2 = true ∧
    countDiscCalls Net.DDecider (backward_D_decider m rr frr u p).2 = 2 ∧
    unpairedDeciderCallsOnly (backward_G_refiner m frr ri u p).2 = true ∧
    countDiscCalls Net.DDecider (backward_G_refiner m frr ri u p).2 = 1 := by
  cases u <;>
    by_cases h1 : m.ganLoss1 = "wgangp" <;>
      by_cases h2 : m.ganLoss2 = "wgangp" <;>
        simp [backward_D, backward_G, backward_D_decider, backward_G_refiner,
          pairedDCallsOnly, unpairedDeciderCallsOnly, countDiscCalls, h1, h2]

/-! ### C1 -/

theorem stepsOf_append (a b : List TrainEvent) :
    stepsOf (a ++ b) = stepsOf a ++ stepsOf b := by
  simp [stepsOf]

theorem stepsOf_backward_D (m : GANModelT) (rr rf fr : List ℚ × List ℚ)
    (u : Bool) (p : ℚ) : stepsOf (backward_D m rr rf fr u p).2 = [] := by
  cases u <;> by_cases h1 : m.ganLoss1 = "wgangp" <;>
    simp [backward_D, stepsOf, h1]

theorem stepsOf_backward_G (m : GANModelT) (fr : List ℚ × List ℚ) (ri : List ℚ)
    (u : Bool) (p : ℚ) : stepsOf (backward_G m fr ri u p).2 = [] := by
  cases u <;> simp [backward_G, stepsOf]

theorem stepsOf_backward_D_decider (m : GANModelT) (rr frr : List ℚ × List ℚ)
    (u : Bool) (p : ℚ) : stepsOf (backward_D_decider m rr frr u p).2 = [] := by
  cases u <;> by_cases h2 : m.ganLoss2 = "wgangp" <;>
    simp [backward_D_decider, stepsOf, h2]

theorem stepsOf_backward_G_refiner (m : GANModelT) (frr : List ℚ × List ℚ)
    (ri : List ℚ) (u : Bool) (p : ℚ) :
    stepsOf (backward_G_refiner m frr ri u p).2 = [] := by
  cases u <;> simp [backward_G_refiner, stepsOf]

theorem stepsOf_cons_srg (n : Net) (b : Bool) (l : List TrainEvent) :
    stepsOf (TrainEvent.setRequiresGrad n b :: l) = stepsOf l := rfl

theorem stepsOf_cons_zero (n : Net) (l : List TrainEvent) :
    stepsOf (TrainEvent.zeroGrad n :: l) = stepsOf l := rfl

theorem stepsOf_cons_step (n : Net) (l : List TrainEvent) :
    stepsOf (TrainEvent.optimStep n :: l) = n :: stepsOf l := rfl

theorem stepsOf_fitStageD (m : GANModelT) (rr rf fr : List ℚ × List ℚ) :
    stepsOf (fitStageD m rr rf fr true).2 = [Net.D] := by
  have h : (fitStageD m rr rf fr true).2 =
      TrainEvent.setRequiresGrad Net.D true :: TrainEvent.zeroGrad Net.D ::
        ((backward_D (set_requires_grad m Net.D true) rr rf fr true
            (set_requires_grad m Net.D true).prob_flip_labels).2 ++
          [TrainEvent.optimStep Net.D]) := rfl
  rw [h, stepsOf_cons_srg, stepsOf_cons_zero, stepsOf_append, stepsOf_backward_D]
  rfl

theorem stepsOf_fitStageG (m : GANModelT) (fr : List ℚ × List ℚ) (ri : List ℚ) :
    stepsOf (fitStageG m fr ri true).2 = [Net.G] := by
  have h : (fitStageG m fr ri true).2 =
      TrainEvent.setRequiresGrad Net.D false :: TrainEvent.setRequiresGrad Net.G true ::
        TrainEvent.zeroGrad Net.G ::
        ((backward_G (stageGEntry m true) fr ri true
            (stageGEntry m true).prob_flip_labels).2 ++
          [TrainEvent.optimStep Net.G]) := rfl
  rw [h, stepsOf_cons_srg, stepsOf_cons_srg, stepsOf_cons_zero, stepsOf_append,
    stepsOf_backward_G]
  rfl

theorem stepsOf_fitStageDDecider (m : GANModelT) (rr frr : List ℚ × List ℚ) :
    stepsOf (fitStageDDecider m rr frr true).2 = [Net.DDecider] := by
  have h : (fitStageDDecider m rr frr true).2 =
      TrainEvent.setRequiresGrad Net.DDecider true :: TrainEvent.zeroGrad Net.DDecider ::
        ((backward_D_decider (set_requires_grad m Net.DDecider true) rr frr true
            (set_requires_grad m Net.DDecider true).prob_flip_labels).2 ++
          [TrainEvent.optimStep Net.DDecider]) := rfl
  rw [h, stepsOf_cons_srg, stepsOf_cons_zero, stepsOf_append,
    stepsOf_backward_D_decider]
  rfl

theorem stepsOf_fitStageGRefiner (m : GANModelT) (frr : List ℚ × List ℚ) (ri : List ℚ) :
    stepsOf (fitStageGRefiner m frr ri true).2 = [Net.GRefiner] := by
  have h : (fitStageGRefiner m frr ri true).2 =
      TrainEvent.setRequiresGrad Net.DDecider false ::
        TrainEvent.setRequiresGrad Net.GRefiner true ::
        TrainEvent.zeroGrad Net.GRefiner ::
        ((backward_G_refiner (stageGRefinerEntry m true) frr ri true
            (stageGRefinerEntry m true).prob_flip_labels).2 ++
          [TrainEvent.optimStep Net.GRefiner]) := rfl
  rw [h, stepsOf_cons_srg, stepsOf_cons_srg, stepsOf_cons_zero, stepsOf_append,
    stepsOf_backward_G_refiner]
  rfl

theorem fitStageD_dParams (m : GANModelT) (rr rf fr : List ℚ × List ℚ) :
    (fitStageD m rr rf fr true).1.dParams = m.dParams + 1 := rfl

theorem fitStageD_gParams (m : GANModelT) (rr rf fr : List ℚ × List ℚ) :
    (fitStageD m rr rf fr true).1.gParams = m.gParams := rfl

theorem fitStageD_gRefinerParams (m : GANModelT) (rr rf fr : List ℚ × List ℚ) :
    (fitStageD m rr rf fr true).1.gRefinerParams = m.gRefinerParams := rfl

theorem fitStageD_dDeciderParams (m : GANModelT) (rr rf fr : List ℚ × List ℚ) :
    (fitStageD m rr rf fr true).1.dDeciderParams = m.dDeciderParams := rfl

theorem fitStageG_gParams (m : GANModelT) (fr : List ℚ × List ℚ) (ri : List ℚ) :
    (fitStageG m fr ri true).1.gParams = m.gParams + 1 := rfl

theorem fitStageG_dParams (m : GANModelT) (fr : List ℚ × List ℚ) (ri : List ℚ) :
    (fitStageG m fr ri true).1.dParams = m.dParams := rfl

theorem fitStageG_gRefinerParams (m : GANModelT) (fr : List ℚ × List ℚ) (ri : List ℚ) :
    (fitStageG m fr ri true).1.gRefinerParams = m.gRefinerParams := rfl

theorem fitStageG_dDeciderParams (m : GANModelT) (fr : List ℚ × List ℚ) (ri : List ℚ) :
    (fitStageG m fr ri true).1.dDeciderParams = m.dDeciderParams := rfl

theorem fitStageDDecider_dDeciderParams (m : GANModelT) (rr frr : List ℚ × List ℚ) :
    (fitStageDDecider m rr frr true).1.dDeciderParams = m.dDeciderParams + 1 := rfl

theorem fitStageDDecider_gParams (m : GANModelT) (rr frr : List ℚ × List ℚ) :
    (fitStageDDecider m rr frr true).1.gParams = m.gParams := rfl

theorem fitStageDDecider_dParams (m : GANModelT) (rr frr : List ℚ × List ℚ) :
    (fitStageDDecider m rr frr true).1.dParams = m.dParams := rfl

theorem fitStageDDecider_gRefinerParams (m : GANModelT) (rr frr : List ℚ × List ℚ) :
    (fitStageDDecider m rr frr true).1.gRefinerParams = m.gRefinerParams := rfl

theorem fitStageGRefiner_gRefinerParams (m : GANModelT) (frr : List ℚ × List ℚ)
    (ri : List ℚ) : (fitStageGRefiner m frr ri true).1.gRefinerParams =
      m.gRefinerParams + 1 := rfl

theorem fitStageGRefiner_gParams (m : GANModelT) (frr : List ℚ × List ℚ)
    (ri : List ℚ) : (fitStageGRefiner m frr ri true).1.gParams = m.gParams := rfl

theorem fitStageGRefiner_dParams (m : GANModelT) (frr : List ℚ × List ℚ)
    (ri : List ℚ) : (fitStageGRefiner m frr ri true).1.dParams = m.dParams := rfl

theorem fitStageGRefiner_dDeciderParams (m : GANModelT) (frr : List ℚ × List ℚ)
    (ri : List ℚ) : (fitStageGRefiner m frr ri true).1.dDeciderParams =
      m.dDeciderParams := rfl

theorem fitTrain_fst (m : GANModelT) (a b c : List ℚ) (tD tG : Bool) :
    (fitTrain m a b c tD tG).1 =
      (fitStageGRefiner
        (fitStageDDecider
          (fitStageG (fitStageD m (a, b) (a, c) (m.G b, b) tD).1 (m.G b, b) a tG).1
          (a, b) (m.G_refiner (m.G b), b) tD).1
        (m.G_refiner (m.G b), b) a tG).1 := rfl

/-- C1: with `phase='train'` (and the default `train_D=train_G=True`) the
four sub-networks receive their optimizer steps in the fixed order D, G,
D_decider, G_refiner; before the G stage's backward pass every
`requires_grad` flag of D is `False` (and `backward_G` leaves them so), and
before the G_refiner stage's backward pass every flag of D_decider is
`False`; each stage advances exactly the parameters of the sub-network being
updated (its own optimizer's step), leaving the other three networks'
parameters unchanged, and the full call steps each network's parameters
exactly once. -/
theorem C1_staged_training_updates (m : GANModelT)
    (real_images real_wv fake_wv ri : List ℚ) (rr rf fr frr : List ℚ × List ℚ)
    (tG u : Bool) (p : ℚ) :
    stepsOf (fitTrain m real_images real_wv fake_wv true true).2 =
      [Net.D, Net.G, Net.DDecider, Net.GRefiner] ∧
    allOff (stageGEntry m tG).dRg = true ∧
    allOff (stageGRefinerEntry m tG).dDeciderRg = true ∧
    (backward_G m fr ri u p).1.dRg = m.dRg ∧
    (backward_G_refiner m frr ri u p).1.dDeciderRg = m.dDeciderRg ∧
    (fitStageD m rr rf fr true).1.dParams = m.dParams + 1 ∧
    (fitStageD m rr rf fr true).1.gParams = m.gParams ∧
    (fitStageD m rr rf fr true).1.gRefinerParams = m.gRefinerParams ∧
    (fitStageD m rr rf fr true).1.dDeciderParams = m.dDeciderParams ∧
    (fitStageG m fr ri true).1.gParams = m.gParams + 1 ∧
    (fitStageG m fr ri true).1.dParams = m.dParams ∧
    (fitStageG m fr ri true).1.gRefinerParams = m.gRefinerParams ∧
    (fitStageG m fr ri true).1.dDeciderParams = m.dDeciderParams ∧
    (fitStageDDecider m rr frr true).1.dDeciderParams = m.dDeciderParams + 1 ∧
    (fitStageDDecider m rr frr true).1.gParams = m.gParams ∧
    (fitStageDDecider m rr frr true).1.dParams = m.dParams ∧
    (fitStageDDecider m rr frr true).1.gRefinerParams = m.gRefinerParams ∧
    (fitStageGRefiner m frr ri true).1.gRefinerParams = m.gRefinerParams + 1 ∧
    (fitStageGRefiner m frr ri true).1.gParams = m.gParams ∧
    (fitStageGRefiner m frr ri true).1.dParams = m.dParams ∧
    (fitStageGRefiner m frr ri true).1.dDeciderParams = m.dDeciderParams ∧
    (fitTrain m real_images real_wv fake_wv true true).1.gParams = m.gParams + 1 ∧
    (fitTrain m real_images real_wv fake_wv true true).1.dParams = m.dParams + 1 ∧
    (fitTrain m real_images real_wv fake_wv true true).1.gRefinerParams =
      m.gRefinerParams + 1 ∧
    (fitTrain m real_images real_wv fake_wv true true).1.dDeciderParams =
      m.dDeciderParams + 1 := by
  refine ⟨?_, ?_, ?_, rfl, rfl,
    fitStageD_dParams m rr rf fr, fitStageD_gParams m rr rf fr,
    fitStageD_gRefinerParams m rr rf fr, fitStageD_dDeciderParams m rr rf fr,
    fitStageG_gParams m fr ri, fitStageG_dParams m fr ri,
    fitStageG_gRefinerParams m fr ri, fitStageG_dDeciderParams m fr ri,
    fitStageDDecider_dDeciderParams m rr frr, fitStageDDecider_gParams m rr frr,
    fitStageDDecider_dParams m rr frr, fitStageDDecider_gRefinerParams m rr frr,
    fitStageGRefiner_gRefinerParams m frr ri, fitStageGRefiner_gParams m frr ri,
    fitStageGRefiner_dParams m frr ri, fitStageGRefiner_dDeciderParams m frr ri,
    ?_, ?_, ?_, ?_⟩
  · simp only [fitTrain, set_inputs]
    rw [stepsOf_append, stepsOf_append, stepsOf_append, stepsOf_fitStageD,
      stepsOf_fitStageG, stepsOf_fitStageDDecider, stepsOf_fitStageGRefiner]
    rfl
  · simp [allOff, stageGEntry, set_requires_grad]
  · simp [allOff, stageGRefinerEntry, set_requires_grad]
  · rw [fitTrain_fst, fitStageGRefiner_gParams, fitStageDDecider_gParams,
      fitStageG_gParams, fitStageD_gParams]
  · rw [fitTrain_fst, fitStageGRefiner_dParams, fitStageDDecider_dParams,
      fitStageG_dParams, fitStageD_dParams]
  · rw [fitTrain_fst, fitStageGRefiner_gRefinerParams,
      fitStageDDecider_gRefinerParams, fitStageG_gRefinerParams,
      fitStageD_gRefinerParams]
  · rw [fitTrain_fst, fitStageGRefiner_dDeciderParams,
      fitStageDDecider_dDeciderParams, fitStageG_dDeciderParams,
      fitStageD_dDeciderParams]

/-! ### C9 -/

/-- The frame property of the non-train branch: parameters, optimizer
states, scheduler states, `requires_grad` flags and the epoch are untouched;
the trace holds only discriminator forward calls (no backward, no
`zero_grad`, no `requires_grad` change, no optimizer step); the four losses
and five accuracies are recomputed with `prob_flip_labels` forced to `0`. -/
def evalFrameHolds (m : GANModelT) (ri rwv fwv : List ℚ) : Prop :=
  (fitEval m ri rwv fwv).1.gParams = m.gParams ∧
  (fitEval m ri rwv fwv).1.dParams = m.dParams ∧
  (fitEval m ri rwv fwv).1.gRefinerParams = m.gRefinerParams ∧
  (fitEval m ri rwv fwv).1.dDeciderParams = m.dDeciderParams ∧
  (fitEval m ri rwv fwv).1.gOptim = m.gOptim ∧
  (fitEval m ri rwv fwv).1.dOptim = m.dOptim ∧
  (fitEval m ri rwv fwv).1.gRefinerOptim = m.gRefinerOptim ∧
  (fitEval m ri rwv fwv).1.dDeciderOptim = m.dDeciderOptim ∧
  (fitEval m ri rwv fwv).1.gSched = m.gSched ∧
  (fitEval m ri rwv fwv).1.dSched = m.dSched ∧
  (fitEval m ri rwv fwv).1.gRefinerSched = m.gRefinerSched ∧
  (fitEval m ri rwv fwv).1.dDeciderSched = m.dDeciderSched ∧
  (fitEval m ri rwv fwv).1.gRg = m.gRg ∧
  (fitEval m ri rwv fwv).1.dRg = m.dRg ∧
  (fitEval m ri rwv fwv).1.gRefinerRg = m.gRefinerRg ∧
  (fitEval m ri rwv fwv).1.dDeciderRg = m.dDeciderRg ∧
  (fitEval m ri rwv fwv).1.epoch = m.epoch ∧
  onlyDiscCalls (fitEval m ri rwv fwv).2 = true ∧
  (fitEval m ri rwv fwv).1.loss_D =
    some ((m.D_criterionGAN (m.D ri rwv) true 0).1 +
      ((m.D_criterionGAN (m.D ri fwv) false 0).1 +
        (m.D_criterionGAN (m.D (m.G rwv) rwv) false 0).1) / 2) ∧
  (fitEval m ri rwv fwv).1.loss_G =
    some (mseLoss (m.G rwv) ri * m.lambda_l1 +
      (m.G_criterionGAN (m.D (m.G rwv) rwv) true 0).1) ∧
  (fitEval m ri rwv fwv).1.loss_D_decider =
    some ((m.D_decider_criterionGAN (m.D_decider ri) true 0).1 +
      (m.D_decider_criterionGAN (m.D_decider (m.G_refiner (m.G rwv))) false 0).1) ∧
  (fitEval m ri rwv fwv).1.loss_G_refiner =
    some (mseLoss (m.G_refiner (m.G rwv)) ri * m.lambda_l1 +
      (m.G_refiner_criterionGAN (m.D_decider (m.G_refiner (m.G rwv))) true 0).1) ∧
  (fitEval m ri rwv fwv).1.accuracy_D_rr = (m.D_criterionGAN (m.D ri rwv) true 0).2 ∧
  (fitEval m ri rwv fwv).1.accuracy_D_rf = (m.D_criterionGAN (m.D ri fwv) false 0).2 ∧
  (fitEval m ri rwv fwv).1.accuracy_D_fr =
    (m.D_criterionGAN (m.D (m.G rwv) rwv) false 0).2 ∧
  (fitEval m ri rwv fwv).1.accuracy_D_decider_rr =
    (m.D_decider_criterionGAN (m.D_decider ri) true 0).2 ∧
  (fitEval m ri rwv fwv).1.accuracy_D_decider_fr =
    (m.D_decider_criterionGAN (m.D_decider (m.G_refiner (m.G rwv))) false 0).2

theorem bD_keep_gParams (m : GANModelT) (rr rf fr : List ℚ × List ℚ) (u : Bool) (p : ℚ) :
    (backward_D m rr rf fr u p).1.gParams = m.gParams := rfl

theorem bD_keep_dParams (m : GANModelT) (rr rf fr : List ℚ × List ℚ) (u : Bool) (p : ℚ) :
    (backward_D m rr rf fr u p).1.dParams = m.dParams := rfl

theorem bD_keep_gRefinerParams (m : GANModelT) (rr rf fr : List ℚ × List ℚ) (u : Bool) (p : ℚ) :
    (backward_D m rr rf fr u p).1.gRefinerParams = m.gRefinerParams := rfl

theorem bD_keep_dDeciderParams (m : GANModelT) (rr rf fr : List ℚ × List ℚ) (u : Bool) (p : ℚ) :
    (backward_D m rr rf fr u p).1.dDeciderParams = m.dDeciderParams := rfl

theorem bD_keep_gOptim (m : GANModelT) (rr rf fr : List ℚ × List ℚ) (u : Bool) (p : ℚ) :
    (backward_D m rr rf fr u p).1.gOptim = m.gOptim := rfl

theorem bD_keep_dOptim (m : GANModelT) (rr rf fr : List ℚ × List ℚ) (u : Bool) (p : ℚ) :
    (backward_D m rr rf fr u p).1.dOptim = m.dOptim := rfl

theorem bD_keep_gRefinerOptim (m : GANModelT) (rr rf fr : List ℚ × List ℚ) (u : Bool) (p : ℚ) :
    (backward_D m rr rf fr u p).1.gRefinerOptim = m.gRefinerOptim := rfl

theorem bD_keep_dDeciderOptim (m : GANModelT) (rr rf fr : List ℚ × List ℚ) (u : Bool) (p : ℚ) :
    (backward_D m rr rf fr u p).1.dDeciderOptim = m.dDeciderOptim := rfl

theorem bD_keep_gSched (m : GANModelT) (rr rf fr : List ℚ × List ℚ) (u : Bool) (p : ℚ) :
    (backward_D m rr rf fr u p).1.gSched = m.gSched := rfl

theorem bD_keep_dSched (m : GANModelT) (rr rf fr : List ℚ × List ℚ) (u : Bool) (p : ℚ) :
    (backward_D m rr rf fr u p).1.dSched = m.dSched := rfl

theorem bD_keep_gRefinerSched (m : GANModelT) (rr rf fr : List ℚ × List ℚ) (u : Bool) (p : ℚ) :
    (backward_D m rr rf fr u p).1.gRefinerSched = m.gRefinerSched := rfl

theorem bD_keep_dDeciderSched (m : GANModelT) (rr rf fr : List ℚ × List ℚ) (u : Bool) (p : ℚ) :
    (backward_D m rr rf fr u p).1.dDeciderSched = m.dDeciderSched := rfl

theorem bD_keep_gRg (m : GANModelT) (rr rf fr : List ℚ × List ℚ) (u : Bool) (p : ℚ) :
    (backward_D m rr rf fr u p).1.gRg = m.gRg := rfl

theorem bD_keep_dRg (m : GANModelT) (rr rf fr : List ℚ × List ℚ) (u : Bool) (p : ℚ) :
    (backward_D m rr rf fr u p).1.dRg = m.dRg := rfl

theorem bD_keep_gRefinerRg (m : GANModelT) (rr rf fr : List ℚ × List ℚ) (u : Bool) (p : ℚ) :
    (backward_D m rr rf fr u p).1.gRefinerRg = m.gRefinerRg := rfl

theorem bD_keep_dDeciderRg (m : GANModelT) (rr rf fr : List ℚ × List ℚ) (u : Bool) (p : ℚ) :
    (backward_D m rr rf fr u p).1.dDeciderRg = m.dDeciderRg := rfl

theorem bD_keep_epoch (m : GANModelT) (rr rf fr : List ℚ × List ℚ) (u : Bool) (p : ℚ) :
    (backward_D m rr rf fr u p).1.epoch = m.epoch := rfl

theorem bD_keep_lambda_l1 (m : GANModelT) (rr rf fr : List ℚ × List ℚ) (u : Bool) (p : ℚ) :
    (backward_D m rr rf fr u p).1.lambda_l1 = m.lambda_l1 := rfl

theorem bD_keep_G_criterionGAN (m : GANModelT) (rr rf fr : List ℚ × List ℚ) (u : Bool) (p : ℚ) :
    (backward_D m rr rf fr u p).1.G_criterionGAN = m.G_criterionGAN := rfl

theorem bD_keep_D (m : GANModelT) (rr rf fr : List ℚ × List ℚ) (u : Bool) (p : ℚ) :
    (backward_D m rr rf fr u p).1.D = m.D := rfl

theorem bD_keep_D_decider_criterionGAN (m : GANModelT) (rr rf fr : List ℚ × List ℚ) (u : Bool) (p : ℚ) :
    (backward_D m rr rf fr u p).1.D_decider_criterionGAN = m.D_decider_criterionGAN := rfl

theorem bD_keep_D_decider (m : GANModelT) (rr rf fr : List ℚ × List ℚ) (u : Bool) (p : ℚ) :
    (backward_D m rr rf fr u p).1.D_decider = m.D_decider := rfl

theorem bD_keep_G_refiner_criterionGAN (m : GANModelT) (rr rf fr : List ℚ × List ℚ) (u : Bool) (p : ℚ) :
    (backward_D m rr rf fr u p).1.G_refiner_criterionGAN = m.G_refiner_criterionGAN := rfl

theorem bD_keep_loss_G (m : GANModelT) (rr rf fr : List ℚ × List ℚ) (u : Bool) (p : ℚ) :
    (backward_D m rr rf fr u p).1.loss_G = m.loss_G := rfl

theorem bD_keep_loss_G_refiner (m : GANModelT) (rr rf fr : List ℚ × List ℚ) (u : Bool) (p : ℚ) :
    (backward_D m rr rf fr u p).1.loss_G_refiner = m.loss_G_refiner := rfl

theorem bD_keep_loss_D_decider (m : GANModelT) (rr rf fr : List ℚ × List ℚ) (u : Bool) (p : ℚ) :
    (backward_D m rr rf fr u p).1.loss_D_decider = m.loss_D_decider := rfl

theorem bG_keep_gParams (m : GANModelT) (fr : List ℚ × List ℚ) (ri : List ℚ) (u : Bool) (p : ℚ) :
    (backward_G m fr ri u p).1.gParams = m.gParams := rfl

theorem bG_keep_dParams (m : GANModelT) (fr : List ℚ × List ℚ) (ri : List ℚ) (u : Bool) (p : ℚ) :
    (backward_G m fr ri u p).1.dParams = m.dParams := rfl

theorem bG_keep_gRefinerParams (m : GANModelT) (fr : List ℚ × List ℚ) (ri : List ℚ) (u : Bool) (p : ℚ) :
    (backward_G m fr ri u p).1.gRefinerParams = m.gRefinerParams := rfl

theorem bG_keep_dDeciderParams (m : GANModelT) (fr : List ℚ × List ℚ) (ri : List ℚ) (u : Bool) (p : ℚ) :
    (backward_G m fr ri u p).1.dDeciderParams = m.dDeciderParams := rfl

theorem bG_keep_gOptim (m : GANModelT) (fr : List ℚ × List ℚ) (ri : List ℚ) (u : Bool) (p : ℚ) :
    (backward_G m fr ri u p).1.gOptim = m.gOptim := rfl

theorem bG_keep_dOptim (m : GANModelT) (fr : List ℚ × List ℚ) (ri : List ℚ) (u : Bool) (p : ℚ) :
    (backward_G m fr ri u p).1.dOptim = m.dOptim := rfl

theorem bG_keep_gRefinerOptim (m : GANModelT) (fr : List ℚ × List ℚ) (ri : List ℚ) (u : Bool) (p : ℚ) :
    (backward_G m fr ri u p).1.gRefinerOptim = m.gRefinerOptim := rfl

theorem bG_keep_dDeciderOptim (m : GANModelT) (fr : List ℚ × List ℚ) (ri : List ℚ) (u : Bool) (p : ℚ) :
    (backward_G m fr ri u p).1.dDeciderOptim = m.dDeciderOptim := rfl

theorem bG_keep_gSched (m : GANModelT) (fr : List ℚ × List ℚ) (ri : List ℚ) (u : Bool) (p : ℚ) :
    (backward_G m fr ri u p).1.gSched = m.gSched := rfl

theorem bG_keep_dSched (m : GANModelT) (fr : List ℚ × List ℚ) (ri : List ℚ) (u : Bool) (p : ℚ) :
    (backward_G m fr ri u p).1.dSched = m.dSched := rfl

theorem bG_keep_gRefinerSched (m : GANModelT) (fr : List ℚ × List ℚ) (ri : List ℚ) (u : Bool) (p : ℚ) :
    (backward_G m fr ri u p).1.gRefinerSched = m.gRefinerSched := rfl

theorem bG_keep_dDeciderSched (m : GANModelT) (fr : List ℚ × List ℚ) (ri : List ℚ) (u : Bool) (p : ℚ) :
    (backward_G m fr ri u p).1.dDeciderSched = m.dDeciderSched := rfl

theorem bG_keep_gRg (m : GANModelT) (fr : List ℚ × List ℚ) (ri : List ℚ) (u : Bool) (p : ℚ) :
    (backward_G m fr ri u p).1.gRg = m.gRg := rfl

theorem bG_keep_dRg (m : GANModelT) (fr : List ℚ × List ℚ) (ri : List ℚ) (u : Bool) (p : ℚ) :
    (backward_G m fr ri u p).1.dRg = m.dRg := rfl

theorem bG_keep_gRefinerRg (m : GANModelT) (fr : List ℚ × List ℚ) (ri : List ℚ) (u : Bool) (p : ℚ) :
    (backward_G m fr ri u p).1.gRefinerRg = m.gRefinerRg := rfl

theorem bG_keep_dDeciderRg (m : GANModelT) (fr : List ℚ × List ℚ) (ri : List ℚ) (u : Bool) (p : ℚ) :
    (backward_G m fr ri u p).1.dDeciderRg = m.dDeciderRg := rfl

theorem bG_keep_epoch (m : GANModelT) (fr : List ℚ × List ℚ) (ri : List ℚ) (u : Bool) (p : ℚ) :
    (backward_G m fr ri u p).1.epoch = m.epoch := rfl

theorem bG_keep_D_decider_criterionGAN (m : GANModelT) (fr : List ℚ × List ℚ) (ri : List ℚ) (u : Bool) (p : ℚ) :
    (backward_G m fr ri u p).1.D_decider_criterionGAN = m.D_decider_criterionGAN := rfl

theorem bG_keep_D_decider (m : GANModelT) (fr : List ℚ × List ℚ) (ri : List ℚ) (u : Bool) (p : ℚ) :
    (backward_G m fr ri u p).1.D_decider = m.D_decider := rfl

theorem bG_keep_lambda_l1 (m : GANModelT) (fr : List ℚ × List ℚ) (ri : List ℚ) (u : Bool) (p : ℚ) :
    (backward_G m fr ri u p).1.lambda_l1 = m.lambda_l1 := rfl

theorem bG_keep_G_refiner_criterionGAN (m : GANModelT) (fr : List ℚ × List ℚ) (ri : List ℚ) (u : Bool) (p : ℚ) :
    (backward_G m fr ri u p).1.G_refiner_criterionGAN = m.G_refiner_criterionGAN := rfl

theorem bG_keep_loss_D (m : GANModelT) (fr : List ℚ × List ℚ) (ri : List ℚ) (u : Bool) (p : ℚ) :
    (backward_G m fr ri u p).1.loss_D = m.loss_D := rfl

theorem bG_keep_accuracy_D_rr (m : GANModelT) (fr : List ℚ × List ℚ) (ri : List ℚ) (u : Bool) (p : ℚ) :
    (backward_G m fr ri u p).1.accuracy_D_rr = m.accuracy_D_rr := rfl

theorem bG_keep_accuracy_D_rf (m : GANModelT) (fr : List ℚ × List ℚ) (ri : List ℚ) (u : Bool) (p : ℚ) :
    (backward_G m fr ri u p).1.accuracy_D_rf = m.accuracy_D_rf := rfl

theorem bG_keep_accuracy_D_fr (m : GANModelT) (fr : List ℚ × List ℚ) (ri : List ℚ) (u : Bool) (p : ℚ) :
    (backward_G m fr ri u p).1.accuracy_D_fr = m.accuracy_D_fr := rfl

theorem bG_keep_loss_G_refiner (m : GANModelT) (fr : List ℚ × List ℚ) (ri : List ℚ) (u : Bool) (p : ℚ) :
    (backward_G m fr ri u p).1.loss_G_refiner = m.loss_G_refiner := rfl

theorem bG_keep_loss_D_decider (m : GANModelT) (fr : List ℚ × List ℚ) (ri : List ℚ) (u : Bool) (p : ℚ) :
    (backward_G m fr ri u p).1.loss_D_decider = m.loss_D_decider := rfl

theorem bDD_keep_gParams (m : GANModelT) (rr frr : List ℚ × List ℚ) (u : Bool) (p : ℚ) :
    (backward_D_decider m rr frr u p).1.gParams = m.gParams := rfl

theorem bDD_keep_dParams (m : GANModelT) (rr frr : List ℚ × List ℚ) (u : Bool) (p : ℚ) :
    (backward_D_decider m rr frr u p).1.dParams = m.dParams := rfl

theorem bDD_keep_gRefinerParams (m : GANModelT) (rr frr : List ℚ × List ℚ) (u : Bool) (p : ℚ) :
    (backward_D_decider m rr frr u p).1.gRefinerParams = m.gRefinerParams := rfl

theorem bDD_keep_dDeciderParams (m : GANModelT) (rr frr : List ℚ × List ℚ) (u : Bool) (p : ℚ) :
    (backward_D_decider m rr frr u p).1.dDeciderParams = m.dDeciderParams := rfl

theorem bDD_keep_gOptim (m : GANModelT) (rr frr : List ℚ × List ℚ) (u : Bool) (p : ℚ) :
    (backward_D_decider m rr frr u p).1.gOptim = m.gOptim := rfl

theorem bDD_keep_dOptim (m : GANModelT) (rr frr : List ℚ × List ℚ) (u : Bool) (p : ℚ) :
    (backward_D_decider m rr frr u p).1.dOptim = m.dOptim := rfl

theorem bDD_keep_gRefinerOptim (m : GANModelT) (rr frr : List ℚ × List ℚ) (u : Bool) (p : ℚ) :
    (backward_D_decider m rr frr u p).1.gRefinerOptim = m.gRefinerOptim := rfl

theorem bDD_keep_dDeciderOptim (m : GANModelT) (rr frr : List ℚ × List ℚ) (u : Bool) (p : ℚ) :
    (backward_D_decider m rr frr u p).1.dDeciderOptim = m.dDeciderOptim := rfl

theorem bDD_keep_gSched (m : GANModelT) (rr frr : List ℚ × List ℚ) (u : Bool) (p : ℚ) :
    (backward_D_decider m rr frr u p).1.gSched = m.gSched := rfl

theorem bDD_keep_dSched (m : GANModelT) (rr frr : List ℚ × List ℚ) (u : Bool) (p : ℚ) :
    (backward_D_decider m rr frr u p).1.dSched = m.dSched := rfl

theorem bDD_keep_gRefinerSched (m : GANModelT) (rr frr : List ℚ × List ℚ) (u : Bool) (p : ℚ) :
    (backward_D_decider m rr frr u p).1.gRefinerSched = m.gRefinerSched := rfl

theorem bDD_keep_dDeciderSched (m : GANModelT) (rr frr : List ℚ × List ℚ) (u : Bool) (p : ℚ) :
    (backward_D_decider m rr frr u p).1.dDeciderSched = m.dDeciderSched := rfl

theorem bDD_keep_gRg (m : GANModelT) (rr frr : List ℚ × List ℚ) (u : Bool) (p : ℚ) :
    (backward_D_decider m rr frr u p).1.gRg = m.gRg := rfl

theorem bDD_keep_dRg (m : GANModelT) (rr frr : List ℚ × List ℚ) (u : Bool) (p : ℚ) :
    (backward_D_decider m rr frr u p).1.dRg = m.dRg := rfl

theorem bDD_keep_gRefinerRg (m : GANModelT) (rr frr : List ℚ × List ℚ) (u : Bool) (p : ℚ) :
    (backward_D_decider m rr frr u p).1.gRefinerRg = m.gRefinerRg := rfl

theorem bDD_keep_dDeciderRg (m : GANModelT) (rr frr : List ℚ × List ℚ) (u : Bool) (p : ℚ) :
    (backward_D_decider m rr frr u p).1.dDeciderRg = m.dDeciderRg := rfl

theorem bDD_keep_epoch (m : GANModelT) (rr frr : List ℚ × List ℚ) (u : Bool) (p : ℚ) :
    (backward_D_decider m rr frr u p).1.epoch = m.epoch := rfl

theorem bDD_keep_lambda_l1 (m : GANModelT) (rr frr : List ℚ × List ℚ) (u : Bool) (p : ℚ) :
    (backward_D_decider m rr frr u p).1.lambda_l1 = m.lambda_l1 := rfl

theorem bDD_keep_G_refiner_criterionGAN (m : GANModelT) (rr frr : List ℚ × List ℚ) (u : Bool) (p : ℚ) :
    (backward_D_decider m rr frr u p).1.G_refiner_criterionGAN = m.G_refiner_criterionGAN := rfl

theorem bDD_keep_D_decider (m : GANModelT) (rr frr : List ℚ × List ℚ) (u : Bool) (p : ℚ) :
    (backward_D_decider m rr frr u p).1.D_decider = m.D_decider := rfl

theorem bDD_keep_loss_D (m : GANModelT) (rr frr : List ℚ × List ℚ) (u : Bool) (p : ℚ) :
    (backward_D_decider m rr frr u p).1.loss_D = m.loss_D := rfl

theorem bDD_keep_loss_G (m : GANModelT) (rr frr : List ℚ × List ℚ) (u : Bool) (p : ℚ) :
    (backward_D_decider m rr frr u p).1.loss_G = m.loss_G := rfl

theorem bDD_keep_accuracy_D_rr (m : GANModelT) (rr frr : List ℚ × List ℚ) (u : Bool) (p : ℚ) :
    (backward_D_decider m rr frr u p).1.accuracy_D_rr = m.accuracy_D_rr := rfl

theorem bDD_keep_accuracy_D_rf (m : GANModelT) (rr frr : List ℚ × List ℚ) (u : Bool) (p : ℚ) :
    (backward_D_decider m rr frr u p).1.accuracy_D_rf = m.accuracy_D_rf := rfl

theorem bDD_keep_accuracy_D_fr (m : GANModelT) (rr frr : List ℚ × List ℚ) (u : Bool) (p : ℚ) :
    (backward_D_decider m rr frr u p).1.accuracy_D_fr = m.accuracy_D_fr := rfl

theorem bDD_keep_loss_G_refiner (m : GANModelT) (rr frr : List ℚ × List ℚ) (u : Bool) (p : ℚ) :
    (backward_D_decider m rr frr u p).1.loss_G_refiner = m.loss_G_refiner := rfl

theorem bGR_keep_gParams (m : GANModelT) (frr : List ℚ × List ℚ) (ri : List ℚ) (u : Bool) (p : ℚ) :
    (backward_G_refiner m frr ri u p).1.gParams = m.gParams := rfl

theorem bGR_keep_dParams (m : GANModelT) (frr : List ℚ × List ℚ) (ri : List ℚ) (u : Bool) (p : ℚ) :
    (backward_G_refiner m frr ri u p).1.dParams = m.dParams := rfl

theorem bGR_keep_gRefinerParams (m : GANModelT) (frr : List ℚ × List ℚ) (ri : List ℚ) (u : Bool) (p : ℚ) :
    (backward_G_refiner m frr ri u p).1.gRefinerParams = m.gRefinerParams := rfl

theorem bGR_keep_dDeciderParams (m : GANModelT) (frr : List ℚ × List ℚ) (ri : List ℚ) (u : Bool) (p : ℚ) :
    (backward_G_refiner m frr ri u p).1.dDeciderParams = m.dDeciderParams := rfl

theorem bGR_keep_gOptim (m : GANModelT) (frr : List ℚ × List ℚ) (ri : List ℚ) (u : Bool) (p : ℚ) :
    (backward_G_refiner m frr ri u p).1.gOptim = m.gOptim := rfl

theorem bGR_keep_dOptim (m : GANModelT) (frr : List ℚ × List ℚ) (ri : List ℚ) (u : Bool) (p : ℚ) :
    (backward_G_refiner m frr ri u p).1.dOptim = m.dOptim := rfl

theorem bGR_keep_gRefinerOptim (m : GANModelT) (frr : List ℚ × List ℚ) (ri : List ℚ) (u : Bool) (p : ℚ) :
    (backward_G_refiner m frr ri u p).1.gRefinerOptim = m.gRefinerOptim := rfl

theorem bGR_keep_dDeciderOptim (m : GANModelT) (frr : List ℚ × List ℚ) (ri : List ℚ) (u : Bool) (p : ℚ) :
    (backward_G_refiner m frr ri u p).1.dDeciderOptim = m.dDeciderOptim := rfl

theorem bGR_keep_gSched (m : GANModelT) (frr : List ℚ × List ℚ) (ri : List ℚ) (u : Bool) (p : ℚ) :
    (backward_G_refiner m frr ri u p).1.gSched = m.gSched := rfl

theorem bGR_keep_dSched (m : GANModelT) (frr : List ℚ × List ℚ) (ri : List ℚ) (u : Bool) (p : ℚ) :
    (backward_G_refiner m frr ri u p).1.dSched = m.dSched := rfl

theorem bGR_keep_gRefinerSched (m : GANModelT) (frr : List ℚ × List ℚ) (ri : List ℚ) (u : Bool) (p : ℚ) :
    (backward_G_refiner m frr ri u p).1.gRefinerSched = m.gRefinerSched := rfl

theorem bGR_keep_dDeciderSched (m : GANModelT) (frr : List ℚ × List ℚ) (ri : List ℚ) (u : Bool) (p : ℚ) :
    (backward_G_refiner m frr ri u p).1.dDeciderSched = m.dDeciderSched := rfl

theorem bGR_keep_gRg (m : GANModelT) (frr : List ℚ × List ℚ) (ri : List ℚ) (u : Bool) (p : ℚ) :
    (backward_G_refiner m frr ri u p).1.gRg = m.gRg := rfl

theorem bGR_keep_dRg (m : GANModelT) (frr : List ℚ × List ℚ) (ri : List ℚ) (u : Bool) (p : ℚ) :
    (backward_G_refiner m frr ri u p).1.dRg = m.dRg := rfl

theorem bGR_keep_gRefinerRg (m : GANModelT) (frr : List ℚ × List ℚ) (ri : List ℚ) (u : Bool) (p : ℚ) :
    (backward_G_refiner m frr ri u p).1.gRefinerRg = m.gRefinerRg := rfl

theorem bGR_keep_dDeciderRg (m : GANModelT) (frr : List ℚ × List ℚ) (ri : List ℚ) (u : Bool) (p : ℚ) :
    (backward_G_refiner m frr ri u p).1.dDeciderRg = m.dDeciderRg := rfl

theorem bGR_keep_epoch (m : GANModelT) (frr : List ℚ × List ℚ) (ri : List ℚ) (u : Bool) (p : ℚ) :
    (backward_G_refiner m frr ri u p).1.epoch = m.epoch := rfl

theorem bGR_keep_loss_D (m : GANModelT) (frr : List ℚ × List ℚ) (ri : List ℚ) (u : Bool) (p : ℚ) :
    (backward_G_refiner m frr ri u p).1.loss_D = m.loss_D := rfl

theorem bGR_keep_loss_G (m : GANModelT) (frr : List ℚ × List ℚ) (ri : List ℚ) (u : Bool) (p : ℚ) :
    (backward_G_refiner m frr ri u p).1.loss_G = m.loss_G := rfl

theorem bGR_keep_loss_D_decider (m : GANModelT) (frr : List ℚ × List ℚ) (ri : List ℚ) (u : Bool) (p : ℚ) :
    (backward_G_refiner m frr ri u p).1.loss_D_decider = m.loss_D_decider := rfl

theorem bGR_keep_accuracy_D_rr (m : GANModelT) (frr : List ℚ × List ℚ) (ri : List ℚ) (u : Bool) (p : ℚ) :
    (backward_G_refiner m frr ri u p).1.accuracy_D_rr = m.accuracy_D_rr := rfl

theorem bGR_keep_accuracy_D_rf (m : GANModelT) (frr : List ℚ × List ℚ) (ri : List ℚ) (u : Bool) (p : ℚ) :
    (backward_G_refiner m frr ri u p).1.accuracy_D_rf = m.accuracy_D_rf := rfl

theorem bGR_keep_accuracy_D_fr (m : GANModelT) (frr : List ℚ × List ℚ) (ri : List ℚ) (u : Bool) (p : ℚ) :
    (backward_G_refiner m frr ri u p).1.accuracy_D_fr = m.accuracy_D_fr := rfl

theorem bGR_keep_accuracy_D_decider_rr (m : GANModelT) (frr : List ℚ × List ℚ) (ri : List ℚ) (u : Bool) (p : ℚ) :
    (backward_G_refiner m frr ri u p).1.accuracy_D_decider_rr = m.accuracy_D_decider_rr := rfl

theorem bGR_keep_accuracy_D_decider_fr (m : GANModelT) (frr : List ℚ × List ℚ) (ri : List ℚ) (u : Bool) (p : ℚ) :
    (backward_G_refiner m frr ri u p).1.accuracy_D_decider_fr = m.accuracy_D_decider_fr := rfl

theorem bD_set_loss_D (m : GANModelT) (rr rf fr : List ℚ × List ℚ) (u : Bool) (p : ℚ) :
    (backward_D m rr rf fr u p).1.loss_D =
      some ((m.D_criterionGAN (m.D rr.1 rr.2) true p).1 +
        ((m.D_criterionGAN (m.D rr.1 rf.2) false p).1 +
          (m.D_criterionGAN (m.D fr.1 rr.2) false p).1) / 2) := rfl

theorem bD_set_accuracy_D_rr (m : GANModelT) (rr rf fr : List ℚ × List ℚ) (u : Bool) (p : ℚ) :
    (backward_D m rr rf fr u p).1.accuracy_D_rr =
      (m.D_criterionGAN (m.D rr.1 rr.2) true p).2 := rfl

theorem bD_set_accuracy_D_rf (m : GANModelT) (rr rf fr : List ℚ × List ℚ) (u : Bool) (p : ℚ) :
    (backward_D m rr rf fr u p).1.accuracy_D_rf =
      (m.D_criterionGAN (m.D rr.1 rf.2) false p).2 := rfl

theorem bD_set_accuracy_D_fr (m : GANModelT) (rr rf fr : List ℚ × List ℚ) (u : Bool) (p : ℚ) :
    (backward_D m rr rf fr u p).1.accuracy_D_fr =
      (m.D_criterionGAN (m.D fr.1 rr.2) false p).2 := rfl

theorem bG_set_loss_G (m : GANModelT) (fr : List ℚ × List ℚ) (ri : List ℚ) (u : Bool) (p : ℚ) :
    (backward_G m fr ri u p).1.loss_G =
      some (mseLoss fr.1 ri * m.lambda_l1 +
        (m.G_criterionGAN (m.D fr.1 fr.2) true p).1) := rfl

theorem bDD_set_loss_D_decider (m : GANModelT) (rr frr : List ℚ × List ℚ) (u : Bool) (p : ℚ) :
    (backward_D_decider m rr frr u p).1.loss_D_decider =
      some ((m.D_decider_criterionGAN (m.D_decider rr.1) true p).1 +
        (m.D_decider_criterionGAN (m.D_decider frr.1) false p).1) := rfl

theorem bDD_set_accuracy_D_decider_rr (m : GANModelT) (rr frr : List ℚ × List ℚ) (u : Bool) (p : ℚ) :
    (backward_D_decider m rr frr u p).1.accuracy_D_decider_rr =
      (m.D_decider_criterionGAN (m.D_decider rr.1) true p).2 := rfl

theorem bDD_set_accuracy_D_decider_fr (m : GANModelT) (rr frr : List ℚ × List ℚ) (u : Bool) (p : ℚ) :
    (backward_D_decider m rr frr u p).1.accuracy_D_decider_fr =
      (m.D_decider_criterionGAN (m.D_decider frr.1) false p).2 := rfl

theorem bGR_set_loss_G_refiner (m : GANModelT) (frr : List ℚ × List ℚ) (ri : List ℚ) (u : Bool) (p : ℚ) :
    (backward_G_refiner m frr ri u p).1.loss_G_refiner =
      some (mseLoss frr.1 ri * m.lambda_l1 +
        (m.G_refiner_criterionGAN (m.D_decider frr.1) true p).1) := rfl

theorem fitEval_fst (m : GANModelT) (ri rwv fwv : List ℚ) :
    (fitEval m ri rwv fwv).1 =
      (backward_G_refiner
        (backward_D_decider
          (backward_G (backward_D m (ri, rwv) (ri, fwv) (m.G rwv, rwv) false 0).1
            (m.G rwv, rwv) ri false 0).1
          (ri, rwv) (m.G_refiner (m.G rwv), rwv) false 0).1
        (m.G_refiner (m.G rwv), rwv) ri false 0).1 := rfl

theorem fitEval_snd (m : GANModelT) (ri rwv fwv : List ℚ) :
    (fitEval m ri rwv fwv).2 =
      (backward_D m (ri, rwv) (ri, fwv) (m.G rwv, rwv) false 0).2 ++
        (backward_G (backward_D m (ri, rwv) (ri, fwv) (m.G rwv, rwv) false 0).1
          (m.G rwv, rwv) ri false 0).2 ++
        (backward_D_decider
          (backward_G (backward_D m (ri, rwv) (ri, fwv) (m.G rwv, rwv) false 0).1
            (m.G rwv, rwv) ri false 0).1
          (ri, rwv) (m.G_refiner (m.G rwv), rwv) false 0).2 ++
        (backward_G_refiner
          (backward_D_decider
            (backward_G (backward_D m (ri, rwv) (ri, fwv) (m.G rwv, rwv) false 0).1
              (m.G rwv, rwv) ri false 0).1
            (ri, rwv) (m.G_refiner (m.G rwv), rwv) false 0).1
          (m.G_refiner (m.G rwv), rwv) ri false 0).2 := rfl

theorem onlyDiscCalls_append (a b : List TrainEvent) :
    onlyDiscCalls (a ++ b) = (onlyDiscCalls a && onlyDiscCalls b) :=
  List.all_append

theorem onlyDiscCalls_backward_D (m : GANModelT) (rr rf fr : List ℚ × List ℚ)
    (p : ℚ) : onlyDiscCalls (backward_D m rr rf fr false p).2 = true := by
  by_cases h1 : m.ganLoss1 = "wgangp" <;> simp [backward_D, onlyDiscCalls, h1]

theorem onlyDiscCalls_backward_G (m : GANModelT) (fr : List ℚ × List ℚ)
    (ri : List ℚ) (p : ℚ) :
    onlyDiscCalls (backward_G m fr ri false p).2 = true := by
  simp [backward_G, onlyDiscCalls]

theorem onlyDiscCalls_backward_D_decider (m : GANModelT) (rr frr : List ℚ × List ℚ)
    (p : ℚ) : onlyDiscCalls (backward_D_decider m rr frr false p).2 = true := by
  by_cases h2 : m.ganLoss2 = "wgangp" <;> simp [backward_D_decider, onlyDiscCalls, h2]

theorem onlyDiscCalls_backward_G_refiner (m : GANModelT) (frr : List ℚ × List ℚ)
    (ri : List ℚ) (p : ℚ) :
    onlyDiscCalls (backward_G_refiner m frr ri false p).2 = true := by
  simp [backward_G_refiner, onlyDiscCalls]

/-- C9: a `fit` call with `phase ≠ 'train'` runs the four loss computations
with label-flipping probability forced to `0.0`, performs no backward pass,
no `zero_grad`, no `requires_grad` change and no optimizer step, and leaves
all network parameters and all optimizer and scheduler states unchanged;
only the recorded last-loss and last-accuracy fields are updated. -/
theorem C9_eval_phase_frame (m : GANModelT) (data : List ℚ × List ℚ × List ℚ)
    (phase : String) (tD tG : Bool) (h : phase ≠ "train") :
    fit m data phase tD tG = fitEval m data.1 data.2.1 data.2.2 ∧
    evalFrameHolds m data.1 data.2.1 data.2.2 := by
  constructor
  · rw [fit, if_neg h]
  · unfold evalFrameHolds
    refine ⟨?_, ?_, ?_, ?_, ?_, ?_, ?_, ?_, ?_, ?_, ?_, ?_, ?_, ?_, ?_, ?_, ?_,
      ?_, ?_, ?_, ?_, ?_, ?_, ?_, ?_, ?_, ?_⟩
    · rw [fitEval_fst, bGR_keep_gParams, bDD_keep_gParams, bG_keep_gParams,
        bD_keep_gParams]
    · rw [fitEval_fst, bGR_keep_dParams, bDD_keep_dParams, bG_keep_dParams,
        bD_keep_dParams]
    · rw [fitEval_fst, bGR_keep_gRefinerParams, bDD_keep_gRefinerParams,
        bG_keep_gRefinerParams, bD_keep_gRefinerParams]
    · rw [fitEval_fst, bGR_keep_dDeciderParams, bDD_keep_dDeciderParams,
        bG_keep_dDeciderParams, bD_keep_dDeciderParams]
    · rw [fitEval_fst, bGR_keep_gOptim, bDD_keep_gOptim, bG_keep_gOptim,
        bD_keep_gOptim]
    · rw [fitEval_fst, bGR_keep_dOptim, bDD_keep_dOptim, bG_keep_dOptim,
        bD_keep_dOptim]
    · rw [fitEval_fst, bGR_keep_gRefinerOptim, bDD_keep_gRefinerOptim,
        bG_keep_gRefinerOptim, bD_keep_gRefinerOptim]
    · rw [fitEval_fst, bGR_keep_dDeciderOptim, bDD_keep_dDeciderOptim,
        bG_keep_dDeciderOptim, bD_keep_dDeciderOptim]
    · rw [fitEval_fst, bGR_keep_gSched, bDD_keep_gSched, bG_keep_gSched,
        bD_keep_gSched]
    · rw [fitEval_fst, bGR_keep_dSched, bDD_keep_dSched, bG_keep_dSched,
        bD_keep_dSched]
    · rw [fitEval_fst, bGR_keep_gRefinerSched, bDD_keep_gRefinerSched,
        bG_keep_gRefinerSched, bD_keep_gRefinerSched]
    · rw [fitEval_fst, bGR_keep_dDeciderSched, bDD_keep_dDeciderSched,
        bG_keep_dDeciderSched, bD_keep_dDeciderSched]
    · rw [fitEval_fst, bGR_keep_gRg, bDD_keep_gRg, bG_keep_gRg, bD_keep_gRg]
    · rw [fitEval_fst, bGR_keep_dRg, bDD_keep_dRg, bG_keep_dRg, bD_keep_dRg]
    · rw [fitEval_fst, bGR_keep_gRefinerRg, bDD_keep_gRefinerRg,
        bG_keep_gRefinerRg, bD_keep_gRefinerRg]
    · rw [fitEval_fst, bGR_keep_dDeciderRg, bDD_keep_dDeciderRg,
        bG_keep_dDeciderRg, bD_keep_dDeciderRg]
    · rw [fitEval_fst, bGR_keep_epoch, bDD_keep_epoch, bG_keep_epoch,
        bD_keep_epoch]
    · rw [fitEval_snd]
      simp only [onlyDiscCalls_append, onlyDiscCalls_backward_D,
        onlyDiscCalls_backward_G, onlyDiscCalls_backward_D_decider,
        onlyDiscCalls_backward_G_refiner, Bool.and_self]
    · rw [fitEval_fst, bGR_keep_loss_D, bDD_keep_loss_D, bG_keep_loss_D,
        bD_set_loss_D]
    · rw [fitEval_fst, bGR_keep_loss_G, bDD_keep_loss_G, bG_set_loss_G,
        bD_keep_lambda_l1, bD_keep_G_criterionGAN, bD_keep_D]
    · rw [fitEval_fst, bGR_keep_loss_D_decider, bDD_set_loss_D_decider,
        bG_keep_D_decider_criterionGAN, bG_keep_D_decider,
        bD_keep_D_decider_criterionGAN, bD_keep_D_decider]
    · rw [fitEval_fst, bGR_set_loss_G_refiner, bDD_keep_lambda_l1,
        bDD_keep_G_refiner_criterionGAN, bDD_keep_D_decider, bG_keep_lambda_l1,
        bG_keep_G_refiner_criterionGAN, bG_keep_D_decider, bD_keep_lambda_l1,
        bD_keep_G_refiner_criterionGAN, bD_keep_D_decider]
    · rw [fitEval_fst, bGR_keep_accuracy_D_rr, bDD_keep_accuracy_D_rr,
        bG_keep_accuracy_D_rr, bD_set_accuracy_D_rr]
    · rw [fitEval_fst, bGR_keep_accuracy_D_rf, bDD_keep_accuracy_D_rf,
        bG_keep_accuracy_D_rf, bD_set_accuracy_D_rf]
    · rw [fitEval_fst, bGR_keep_accuracy_D_fr, bDD_keep_accuracy_D_fr,
        bG_keep_accuracy_D_fr, bD_set_accuracy_D_fr]
    · rw [fitEval_fst, bGR_keep_accuracy_D_decider_rr,
        bDD_set_accuracy_D_decider_rr, bG_keep_D_decider_criterionGAN,
        bG_keep_D_decider, bD_keep_D_decider_criterionGAN, bD_keep_D_decider]
    · rw [fitEval_fst, bGR_keep_accuracy_D_decider_fr,
        bDD_set_accuracy_D_decider_fr, bG_keep_D_decider_criterionGAN,
        bG_keep_D_decider, bD_keep_D_decider_criterionGAN, bD_keep_D_decider]

theorem C9_eval_phase_frame_witness :
    ("val" : String) ≠ "train" ∧
    (fit sampleModel sampleData "val" true true =
        fitEval sampleModel sampleData.1 sampleData.2.1 sampleData.2.2 ∧
      evalFrameHolds sampleModel sampleData.1 sampleData.2.1 sampleData.2.2) :=
  ⟨by decide, C9_eval_phase_frame sampleModel sampleData "val" true true (by decide)⟩

/-! ### C2 -/

/-- C2: checkpoint round trip.  `save_model_dict` writes the current twelve
component states under the formatted filename; constructing a train-mode
model from that file with `reset_lr=False` restores the four network
parameter states, the four optimizer states and the four scheduler states to
the saved values, and sets the current epoch to the epoch parsed from the
saved filename plus one (the `epoch` argument that was saved, whenever the
model name contains no underscore and no path separator occurs in the name
or the formatted losses). -/
theorem C2_checkpoint_roundtrip (m fresh : GANModelT) (epoch iteration : Nat)
    (l1 l2 l3 l4 : List Char) (configLR : ℚ)
    (hu : '_' ∉ m.model_name) (hn : '/' ∉ m.model_name)
    (h1 : '/' ∉ l1) (h2 : '/' ∉ l2) (h3 : '/' ∉ l3) (h4 : '/' ∉ l4) :
    load_state_dict fresh (save_model_dict m epoch iteration l1 l2 l3 l4).1
        (save_model_dict m epoch iteration l1 l2 l3 l4).2 false configLR =
      some
        { fresh with
          epoch := epoch + 1
          gParams := m.gParams, gRefinerParams := m.gRefinerParams
          dParams := m.dParams, dDeciderParams := m.dDeciderParams
          gOptim := m.gOptim, dOptim := m.dOptim
          gRefinerOptim := m.gRefinerOptim, dDeciderOptim := m.dDeciderOptim
          gSched := m.gSched, dSched := m.dSched
          gRefinerSched := m.gRefinerSched, dDeciderSched := m.dDeciderSched } := by
  have hp := parseEpochOfFile_modelFilePath m.model_dir m.model_name epoch iteration
    l1 l2 l3 l4 hu hn h1 h2 h3 h4
  unfold save_model_dict load_state_dict
  rw [hp]
  rfl

theorem C2_checkpoint_roundtrip_witness :
    ('_' ∉ sampleModel.model_name) ∧ ('/' ∉ sampleModel.model_name) ∧
    ('/' ∉ "1.2345".data) ∧ ('/' ∉ "2.0000".data) ∧
    ('/' ∉ "3.5000".data) ∧ ('/' ∉ "4.7500".data) ∧
    load_state_dict sampleFresh
        (save_model_dict sampleModel 3 7 "1.2345".data "2.0000".data
          "3.5000".data "4.7500".data).1
        (save_model_dict sampleModel 3 7 "1.2345".data "2.0000".data
          "3.5000".data "4.7500".data).2 false (1 / 5000) =
      some
        { sampleFresh with
          epoch := 3 + 1
          gParams := sampleModel.gParams, gRefinerParams := sampleModel.gRefinerParams
          dParams := sampleModel.dParams, dDeciderParams := sampleModel.dDeciderParams
          gOptim := sampleModel.gOptim, dOptim := sampleModel.dOptim
          gRefinerOptim := sampleModel.gRefinerOptim
          dDeciderOptim := sampleModel.dDeciderOptim
          gSched := sampleModel.gSched, dSched := sampleModel.dSched
          gRefinerSched := sampleModel.gRefinerSched
          dDeciderSched := sampleModel.dDeciderSched } :=
  ⟨by decide, by decide, by decide, by decide, by decide, by decide,
    C2_checkpoint_roundtrip sampleModel sampleFresh 3 7 "1.2345".data
      "2.0000".data "3.5000".data "4.7500".data (1 / 5000) (by decide)
      (by decide) (by decide) (by decide) (by decide) (by decide)⟩

/-! ### C3 -/

/-- C3 counterexample: the checkpoint dictionary written by
`save_model_dict` at a concrete state has twelve entries and no `'epoch'`
key, so it does not contain an epoch index among its components (the claim
counts thirteen components including the epoch). -/
theorem C3_counterexample :
    ((save_model_dict sampleModel 3 7 "1.0000".data "2.0000".data "3.0000".data
        "4.0000".data).2.map Prod.fst).length = 12 ∧
    "epoch" ∉ (save_model_dict sampleModel 3 7 "1.0000".data "2.0000".data
        "3.0000".data "4.0000".data).2.map Prod.fst := by
  exact ⟨rfl, by decide⟩

/-- C3 (amended): every checkpoint written by `save_model_dict` contains
exactly twelve components — four network parameter snapshots, four optimizer
snapshots and four scheduler snapshots, under the twelve `state_dict` keys —
and no epoch entry; the epoch index is recorded in the checkpoint filename
instead of the dictionary. -/
theorem C3_amended_twelve_components (m : GANModelT) (e i : Nat)
    (l1 l2 l3 l4 : List Char) :
    (save_model_dict m e i l1 l2 l3 l4).2.map Prod.fst =
      ["g", "g_optim", "g_lr_scheduler", "d", "d_optim", "d_lr_scheduler",
       "g_refiner", "g_refiner_optim", "g_refiner_lr_scheduler",
       "d_decider", "d_decider_optim", "d_decider_lr_scheduler"] ∧
    (save_model_dict m e i l1 l2 l3 l4).2.length = 12 ∧
    "epoch" ∉ (save_model_dict m e i l1 l2 l3 l4).2.map Prod.fst ∧
    (save_model_dict m e i l1 l2 l3 l4).1 =
      modelFilePath m.model_dir m.model_name e i l1 l2 l3 l4 := by
  refine ⟨rfl, rfl, ?_, rfl⟩
  intro hmem
  simp only [save_model_dict, set_state_dict, List.map_cons, List.map_nil,
    List.mem_cons, List.not_mem_nil, or_false] at hmem
  rcases hmem with h | h | h | h | h | h | h | h | h | h | h | h <;> exact absurd h (by decide)

/-! ### C4 -/

theorem mem_format4 (q : ℚ) (c : Char) (h : c ∈ format4 q) :
    c.isDigit = true ∨ c = '-' ∨ c = '.' := by
  unfold format4 at h
  simp only [List.mem_append, List.mem_cons] at h
  rcases h with (h | h) | h | h
  · split at h
    · simp only [List.mem_singleton] at h
      exact Or.inr (Or.inl h)
    · simp at h
  · exact Or.inl (mem_natToDecimal_isDigit _ _ h)
  · exact Or.inr (Or.inr h)
  · exact Or.inl (mem_padZeros_natToDecimal_isDigit _ _ _ h)

theorem not_mem_comma_natToDecimal (n : Nat) : ',' ∉ natToDecimal n := fun h =>
  (isDigit_ne_separators _ (mem_natToDecimal_isDigit n _ h)).2.2.1 rfl

theorem not_mem_comma_format4 (q : ℚ) : ',' ∉ format4 q := by
  intro h
  rcases mem_format4 q _ h with h | h | h
  · exact (isDigit_ne_separators _ h).2.2.1 rfl
  · exact absurd h (by decide)
  · exact absurd h (by decide)

theorem r_not_mem_natToDecimal (n : Nat) : ('r' : Char) ∉ natToDecimal n := fun h => by
  have := mem_natToDecimal_isDigit n _ h
  revert this
  decide

theorem r_not_mem_format4 (q : ℚ) : ('r' : Char) ∉ format4 q := by
  intro h
  rcases mem_format4 q _ h with h | h | h <;> revert h <;> decide

theorem splitC_logRow (t : LogTuple) :
    splitC ',' (logRow t) =
      [natToDecimal t.epoch, natToDecimal t.iteration, format4 t.loss_g,
       format4 t.loss_d, format4 t.loss_g_refiner, format4 t.loss_d_decider,
       format4 t.acc_rr, format4 t.acc_rf, format4 t.acc_fr,
       format4 t.acc_decider_rr, format4 t.acc_decider_fr ++ [Char.ofNat 10]] := by
  have h1 : logRow t =
      joinC ',' [natToDecimal t.epoch, natToDecimal t.iteration, format4 t.loss_g,
        format4 t.loss_d, format4 t.loss_g_refiner, format4 t.loss_d_decider,
        format4 t.acc_rr, format4 t.acc_rf, format4 t.acc_fr,
        format4 t.acc_decider_rr, format4 t.acc_decider_fr ++ [Char.ofNat 10]] := by
    simp [logRow, logRowFields, joinC]
  rw [h1]
  apply splitC_joinC
  · simp
  · intro p hp
    simp only [List.mem_cons, List.not_mem_nil, or_false] at hp
    rcases hp with rfl | rfl | rfl | rfl | rfl | rfl | rfl | rfl | rfl | rfl | rfl
    · exact not_mem_comma_natToDecimal _
    · exact not_mem_comma_natToDecimal _
    · exact not_mem_comma_format4 _
    · exact not_mem_comma_format4 _
    · exact not_mem_comma_format4 _
    · exact not_mem_comma_format4 _
    · exact not_mem_comma_format4 _
    · exact not_mem_comma_format4 _
    · exact not_mem_comma_format4 _
    · exact not_mem_comma_format4 _
    · intro h
      rcases List.mem_append.mp h with h | h
      · exact not_mem_comma_format4 _ h
      · exact absurd h (by decide)

def sampleLogTuple : LogTuple :=
  { phase := "train"
    epoch := 2
    iteration := 3
    loss_g := 1
    loss_d := 2
    loss_g_refiner := 3
    loss_d_decider := 4
    acc_rr := 1
    acc_rf := 0
    acc_fr := 1
    acc_decider_rr := 1
    acc_decider_fr := 0 }

/-- C4 counterexample: the row that `save_logs` appends for a concrete log
tuple splits on the delimiter into exactly eleven fields — epoch, iteration,
four losses and five accuracies — and the phase string is not one of them,
so the appended record does not contain the phase and does not hold seven
loss values (which, with the phase, the epoch, the iteration and five
accuracies, would make fourteen fields). -/
theorem C4_counterexample :
    (splitC ',' (logRow sampleLogTuple)).length = 11 ∧
    "train".data ∉ splitC ',' (logRow sampleLogTuple) := by
  constructor
  · rw [splitC_logRow]
    rfl
  · rw [splitC_logRow]
    intro hmem
    have hr : ('r' : Char) ∈ (['t', 'r', 'a', 'i', 'n'] : List Char) := by decide
    simp only [List.mem_cons, List.not_mem_nil, or_false] at hmem
    rcases hmem with h | h | h | h | h | h | h | h | h | h | h
    · exact r_not_mem_natToDecimal _ (h ▸ hr)
    · exact r_not_mem_natToDecimal _ (h ▸ hr)
    · exact r_not_mem_format4 _ (h ▸ hr)
    · exact r_not_mem_format4 _ (h ▸ hr)
    · exact r_not_mem_format4 _ (h ▸ hr)
    · exact r_not_mem_format4 _ (h ▸ hr)
    · exact r_not_mem_format4 _ (h ▸ hr)
    · exact r_not_mem_format4 _ (h ▸ hr)
    · exact r_not_mem_format4 _ (h ▸ hr)
    · exact r_not_mem_format4 _ (h ▸ hr)
    · rcases List.mem_append.mp (h ▸ hr) with h2 | h2
      · exact r_not_mem_format4 _ h2
      · exact absurd h2 (by decide)

/-- C4 (amended): `save_logs` appends exactly one comma-delimited record to
the log file selected by the phase (the train log when `phase='train'`, the
validation log otherwise), leaving the other file and all previously written
rows unchanged; the record consists of eleven fields — the epoch, the
iteration, the four loss values and the five accuracy values — and does not
contain the phase. -/
theorem C4_amended_log_row (f : LogFiles) (t : LogTuple) :
    (save_logs f t).train_log_file =
      (if t.phase = "train" then f.train_log_file ++ [logRow t]
       else f.train_log_file) ∧
    (save_logs f t).val_log_file =
      (if t.phase = "train" then f.val_log_file
       else f.val_log_file ++ [logRow t]) ∧
    splitC ',' (joinC ',' (logRowFields t)) = logRowFields t ∧
    (logRowFields t).length = 11 ∧
    logRowFields t =
      [natToDecimal t.epoch, natToDecimal t.iteration, format4 t.loss_g,
       format4 t.loss_d, format4 t.loss_g_refiner, format4 t.loss_d_decider,
       format4 t.acc_rr, format4 t.acc_rf, format4 t.acc_fr,
       format4 t.acc_decider_rr, format4 t.acc_decider_fr] := by
  refine ⟨?_, ?_, ?_, rfl, rfl⟩
  · by_cases hp : t.phase = "train" <;> simp [save_logs, hp]
  · by_cases hp : t.phase = "train" <;> simp [save_logs, hp]
  · apply splitC_joinC
    · simp [logRowFields]
    · intro p hp
      simp only [logRowFields, List.mem_cons, List.not_mem_nil, or_false] at hp
      rcases hp with rfl | rfl | rfl | rfl | rfl | rfl | rfl | rfl | rfl | rfl | rfl
      · exact not_mem_comma_natToDecimal _
      · exact not_mem_comma_natToDecimal _
      all_goals exact not_mem_comma_format4 _

/-! ### C8 -/

/-- The metrics a model state has actually observed: its recorded losses and
discriminator accuracies. -/
def observedMetrics (m : GANModelT) : List ℚ :=
  m.loss_G.toList ++ m.loss_D.toList ++ m.loss_G_refiner.toList ++
    m.loss_D_decider.toList ++ m.loss_gp_fr.toList ++ m.loss_gp_rf.toList ++
    m.loss_gp_decider_fr.toList ++
    [m.accuracy_D_rr, m.accuracy_D_rf, m.accuracy_D_fr,
     m.accuracy_D_decider_rr, m.accuracy_D_decider_fr]

def sampleModelLossy : GANModelT :=
  { sampleModel with
    loss_G := some 5
    loss_D := some 3
    loss_G_refiner := some 2
    loss_D_decider := some 7
    loss_gp_fr := some 1
    loss_gp_rf := some 4
    loss_gp_decider_fr := some 6
    accuracy_D_rr := 9
    accuracy_D_rf := 8
    accuracy_D_fr := 7
    accuracy_D_decider_rr := 6
    accuracy_D_decider_fr := 5 }

/-- C8 counterexample: at a concrete state whose recorded losses and
accuracies are all nonzero, `update_lr` advances all four schedulers with
the constant metric `0`, which is not any metric the model has observed, so
the learning-rate policy does not respond to observed metric plateaus. -/
theorem C8_counterexample :
    (update_lr sampleModelLossy).2 = [0, 0, 0, 0] ∧
    (0 : ℚ) ∉ observedMetrics sampleModelLossy := by
  refine ⟨rfl, ?_⟩
  intro h
  simp only [observedMetrics, sampleModelLossy, sampleModel, Option.toList_some,
    List.mem_append, List.mem_singleton, List.mem_cons, List.not_mem_nil,
    or_false] at h
  rcases h with h | h | h | h | h | h | h | h | h | h | h | h <;> revert h <;> norm_num

/-- The scheduler state after its first `step(0)` followed by `k`
non-improving steps: best is `0` and `k` bad epochs are recorded. -/
def schedulerAfterBad (lr : ℚ) (k : Nat) : PlateauScheduler :=
  { mkScheduler lr with best := some 0, numBadEpochs := k }

theorem stepZero_mkScheduler (lr : ℚ) :
    stepZero (mkScheduler lr) = schedulerAfterBad lr 0 := rfl

theorem isBetter_zero_zero : isBetter 0 (some 0) (1 / 100) = false := by
  simp [isBetter]

theorem stepZero_schedulerAfterBad (lr : ℚ) (k : Nat) (hk : k < 100) :
    stepZero (schedulerAfterBad lr k) = schedulerAfterBad lr (k + 1) := by
  unfold stepZero plateauStep schedulerAfterBad mkScheduler
  rw [show isBetter 0 (some 0) (1 / 100) = false from isBetter_zero_zero]
  simp only [Bool.false_eq_true, if_false, gt_iff_lt, Nat.lt_irrefl, if_neg,
    Nat.not_lt_zero]
  rw [if_neg (by omega : ¬ (100 : Nat) < k + 1)]

theorem iterate_stepZero_schedulerAfterBad (lr : ℚ) :
    ∀ k, k ≤ 100 → stepZero^[k] (schedulerAfterBad lr 0) = schedulerAfterBad lr k := by
  intro k
  induction k with
  | zero => intro _; rfl
  | succ n ih =>
    intro hk
    rw [Function.iterate_succ_apply', ih (by omega),
      stepZero_schedulerAfterBad lr n (by omega)]

theorem stepZero_reduces (lr : ℚ) (h1 : 0 < lr) (h2 : lr * (1 / 4) > 1 / 100000000) :
    stepZero (schedulerAfterBad lr 100) =
      { schedulerAfterBad lr 0 with lr := lr * (3 / 4) } := by
  unfold stepZero plateauStep schedulerAfterBad mkScheduler
  rw [show isBetter 0 (some 0) (1 / 100) = false from isBetter_zero_zero]
  simp only [Bool.false_eq_true, if_false, gt_iff_lt, Nat.lt_irrefl, if_neg,
    Nat.not_lt_zero]
  rw [if_pos (by omega : (100 : Nat) < 100 + 1)]
  have hmax : max (lr * (3 / 4)) 0 = lr * (3 / 4) := by
    rw [max_eq_left]
    positivity
  rw [hmax, if_pos (by linarith : lr - lr * (3 / 4) > 1 / 100000000)]

theorem iterate_101_stepZero (lr : ℚ) :
    stepZero^[101] (mkScheduler lr) = schedulerAfterBad lr 100 := by
  rw [show (101 : Nat) = 100 + 1 from rfl, Function.iterate_add_apply,
    show stepZero^[1] (mkScheduler lr) = schedulerAfterBad lr 0 from
      stepZero_mkScheduler lr,
    iterate_stepZero_schedulerAfterBad lr 100 (by omega)]

/-- C8 (amended): each call of `update_lr` advances all four
`ReduceLROnPlateau` schedulers with the constant metric `0.0` (not an
observed metric); a scheduler never reduces the learning rate on a step
whose supplied metric improves on the best value, and with the constant
metric `0` the rate is kept for the first 101 calls and then cut by the
factor `0.75` on the 102nd call — a fixed periodic decay independent of
training behaviour. -/
theorem C8_amended_constant_metric (m : GANModelT) (s : PlateauScheduler) (met : ℚ) :
    (update_lr m).1.gSched = plateauStep m.gSched 0 ∧
    (update_lr m).1.dSched = plateauStep m.dSched 0 ∧
    (update_lr m).1.gRefinerSched = plateauStep m.gRefinerSched 0 ∧
    (update_lr m).1.dDeciderSched = plateauStep m.dDeciderSched 0 ∧
    (update_lr m).2 = [0, 0, 0, 0] ∧
    (isBetter met s.best s.threshold = false ∨ (plateauStep s met).lr = s.lr) ∧
    (stepZero^[101] (mkScheduler 1)).lr = 1 ∧
    (stepZero^[102] (mkScheduler 1)).lr = 3 / 4 := by
  refine ⟨rfl, rfl, rfl, rfl, rfl, ?_, ?_, ?_⟩
  · by_cases hb : isBetter met s.best s.threshold
    · right
      unfold plateauStep
      rw [if_pos hb]
      by_cases hc : 0 < s.cooldownCounter <;> simp [hc]
    · exact Or.inl (by simpa using hb)
  · rw [iterate_101_stepZero]
    rfl
  · rw [show (102 : Nat) = 1 + 101 from rfl, Function.iterate_add_apply,
      iterate_101_stepZero, Function.iterate_one,
      stepZero_reduces 1 (by norm_num) (by norm_num)]
    norm_num
